import Mathlib

/-!
A shallow embedding of the `wrapped.ts` module of node-llvmc: typed wrapper
classes over the LLVM C API.  Every wrapper method is translated from the
TypeScript source into an explicit-state Lean function.  The native LLVM
library itself (reached through the repository's `llvmc` FFI declaration
file, which is not part of the sources here) is modelled from the
specification as a small state machine `NativeState`; every native call made
by a wrapper method is additionally recorded in an observable trace, so that
theorems can speak about exactly which native functions are invoked and with
which arguments.

Conventions:
* a JavaScript `null` / missing handle is `Option.none`; a live native handle
  is `some h` with `h : Nat`;
* each wrapper class (`Module`, `Builder`, `StructType`, ...) becomes a
  structure holding its `ref` field, exactly as in the source where every
  class derives from `Ref { ref: any }`;
* a wrapper method `m(a, b)` of class `C` becomes
  `C.m : C → A → B → NativeState → Result × NativeState`; mutation of the
  receiver (only `free`, which nulls `ref`) returns the updated receiver;
* a caller-misuse fault (using a disposed or invalid handle) sets the sticky
  `faulted` flag of the state: the specification classifies these as native
  crashes, i.e. detectable, fail-fast events.
-/

namespace LW

/-- An argument as it is handed to a native FFI call.  `handle` is a raw
native handle value (for instance a wrapper's `ref` field, or the result of a
nested native call); `obj` records that a whole wrapper *object* was passed
where a handle was expected (the payload is that wrapper's `ref` field);
`ptrArr` is a `PointerArray` of handles; `outPtr` is an out-parameter
allocation. -/
inductive FFIArg where
  | handle : Option Nat → FFIArg
  | obj : Option Nat → FFIArg
  | str : String → FFIArg
  | int : Int → FFIArg
  | boolean : Bool → FFIArg
  | ptrArr : List (Option Nat) → FFIArg
  | outPtr : String → FFIArg
  deriving DecidableEq, Repr

/-- One recorded native call: the C API function name and its arguments. -/
structure NativeCall where
  fn : String
  args : List FFIArg
  deriving DecidableEq, Repr

/-- A function declaration living inside a native module: its name, its own
value handle, the handle of its function type and the handles of its
parameter values. -/
structure FuncDecl where
  name : String
  handle : Nat
  type : Option Nat
  params : List Nat
  deriving DecidableEq, Repr

/-- The native-side state of one LLVM module. -/
structure ModuleSt where
  handle : Nat
  functions : List FuncDecl
  target : String
  dataLayout : String
  deriving DecidableEq, Repr

/-- The native-side state of one basic block: its parent function handle and
its instruction handles in execution order. -/
structure BlockSt where
  handle : Nat
  parent : Option Nat
  instrs : List Nat
  deriving DecidableEq, Repr

/-- An instruction-builder insertion position: a block handle and an offset
into that block's instruction sequence. -/
structure BuilderPos where
  block : Nat
  offset : Nat
  deriving DecidableEq, Repr

/-- The native-side state of one instruction builder. -/
structure BuilderSt where
  handle : Nat
  pos : Option BuilderPos
  deriving DecidableEq, Repr

/-- The native-side record of a struct type: its element type handles in
order and its packed flag. -/
structure StructSt where
  handle : Nat
  elems : List (Option Nat)
  packed : Bool
  deriving DecidableEq, Repr

/-- The native-side record of a function type: return type handle and
parameter type handles in order. -/
structure FnTypeSt where
  handle : Nat
  ret : Option Nat
  params : List (Option Nat)
  deriving DecidableEq, Repr

/-- Modelled from the spec: the state of the native LLVM library (the
repository's `llvmc` FFI layer is not among the sources, so its behaviour is
modelled from the specification).  `targets` is the set of target triples
the statically-initialized backends can resolve, with the target handle each
resolves to.  `trace` is the observable sequence of native calls made so
far, and `faulted` is set when a call is made with a null or dangling handle
(the specification calls these native-level faults/crashes). -/
structure NativeState where
  nextHandle : Nat
  faulted : Bool
  trace : List NativeCall
  modules : List ModuleSt
  blocks : List BlockSt
  builders : List BuilderSt
  structTypes : List StructSt
  fnTypes : List FnTypeSt
  targets : List (String × Nat)
  targetMachines : List (Nat × Option Nat)
  names : List (Nat × String)
  deriving DecidableEq, Repr

/-- A convenient empty native state. -/
def emptyState : NativeState :=
  { nextHandle := 100, faulted := false, trace := [], modules := [],
    blocks := [], builders := [], structTypes := [], fnTypes := [],
    targets := [], targetMachines := [], names := [] }

/-- Record one native call in the observable trace. -/
def NativeState.emit (s : NativeState) (fn : String) (args : List FFIArg) :
    NativeState :=
  { s with trace := s.trace ++ [⟨fn, args⟩] }

/-- A native-level fault (crash / undefined native behaviour on a bad
handle); the flag is sticky. -/
def NativeState.fault (s : NativeState) : NativeState :=
  { s with faulted := true }

/-- Allocate a fresh native handle. -/
def NativeState.fresh (s : NativeState) : Nat × NativeState :=
  (s.nextHandle, { s with nextHandle := s.nextHandle + 1 })

/-- The calls a computation starting from state `s` and ending in state `t`
appended to the trace. -/
def newCalls (s t : NativeState) : List NativeCall :=
  t.trace.drop s.trace.length

/-- Process-wide singleton handles for the primitive global types and the
global context (in the native library these are lazily created singletons;
the model reserves fixed handles below `emptyState.nextHandle` for them). -/
def voidTypeHandle : Nat := 1

def int1TypeHandle : Nat := 2

def int8TypeHandle : Nat := 3

def int16TypeHandle : Nat := 4

def int32TypeHandle : Nat := 5

def int64TypeHandle : Nat := 6

def int128TypeHandle : Nat := 7

def floatTypeHandle : Nat := 8

def doubleTypeHandle : Nat := 9

def globalContextHandle : Nat := 10

/-- Modelled from the spec: the string the native library reports as the
default target triple (its exact value is native-owned). -/
def defaultTargetTripleString : String := "default-target-triple"

/-- Insert an element at a given offset of a list (at the end when the
offset is not smaller than the length); exactly one element is inserted. -/
def insertAt : Nat → α → List α → List α
  | 0, a, l => a :: l
  | _ + 1, a, [] => [a]
  | n + 1, a, x :: l => x :: insertAt n a l

/-! ### Lookup and update of native objects by handle -/

/-- Look up the native module with the given handle. -/
def findModule (s : NativeState) (h : Nat) : Option ModuleSt :=
  s.modules.find? (fun m => m.handle == h)

/-- Look up the native basic block with the given handle. -/
def findBlock (s : NativeState) (h : Nat) : Option BlockSt :=
  s.blocks.find? (fun b => b.handle == h)

/-- Look up the native builder with the given handle. -/
def findBuilder (s : NativeState) (h : Nat) : Option BuilderSt :=
  s.builders.find? (fun b => b.handle == h)

/-- Look up the native struct type with the given handle. -/
def findStruct (s : NativeState) (h : Nat) : Option StructSt :=
  s.structTypes.find? (fun st => st.handle == h)

/-- Look up the native function type with the given handle. -/
def findFnType (s : NativeState) (h : Nat) : Option FnTypeSt :=
  s.fnTypes.find? (fun ft => ft.handle == h)

/-- Update every native module carrying the given handle. -/
def updModule (s : NativeState) (h : Nat) (f : ModuleSt → ModuleSt) :
    NativeState :=
  { s with modules := s.modules.map (fun m => if m.handle == h then f m else m) }

/-- Update every native basic block carrying the given handle. -/
def updBlock (s : NativeState) (h : Nat) (f : BlockSt → BlockSt) :
    NativeState :=
  { s with blocks := s.blocks.map (fun b => if b.handle == h then f b else b) }

/-- Update every native builder carrying the given handle. -/
def updBuilder (s : NativeState) (h : Nat) (f : BuilderSt → BuilderSt) :
    NativeState :=
  { s with builders := s.builders.map (fun b => if b.handle == h then f b else b) }

/-! ### Native semantics, modelled from the spec

The `llvmc` FFI layer and the native library behind it are not among the
sources, so each `native*` function below is modelled from the
specification's description of the corresponding C API behaviour. -/

/-- Modelled from the spec: module creation allocates a fresh module. -/
def nativeCreateModule (s : NativeState) : Nat × NativeState :=
  let (h, s) := s.fresh
  (h, { s with modules := s.modules ++ [⟨h, [], "", ""⟩] })

/-- Modelled from the spec: disposing a module releases it; disposal calls
are assumed infallible (spec §7), so a null handle disposes nothing. -/
def nativeDisposeModule (s : NativeState) (m : Option Nat) : NativeState :=
  match m with
  | none => s
  | some mh => { s with modules := s.modules.filter (fun md => md.handle != mh) }

/-- Modelled from the spec: set a module's target triple; a null or dangling
module handle is a native fault. -/
def nativeSetTarget (s : NativeState) (m : Option Nat) (tt : String) :
    NativeState :=
  match m with
  | none => s.fault
  | some mh =>
    match findModule s mh with
    | none => s.fault
    | some _ => updModule s mh (fun md => { md with target := tt })

/-- Modelled from the spec: set a module's data-layout string; a null or
dangling module handle is a native fault. -/
def nativeSetDataLayout (s : NativeState) (m : Option Nat) (dl : String) :
    NativeState :=
  match m with
  | none => s.fault
  | some mh =>
    match findModule s mh with
    | none => s.fault
    | some _ => updModule s mh (fun md => { md with dataLayout := dl })

/-- Modelled from the spec: write the module's bitcode form (the file
contents are native-owned and not modelled); returns the C status code 0 on
success; a null or dangling module handle is a native fault. -/
def nativeWriteBitcodeToFile (s : NativeState) (m : Option Nat) :
    Int × NativeState :=
  match m with
  | none => (0, s.fault)
  | some mh =>
    match findModule s mh with
    | none => (0, s.fault)
    | some _ => (0, s)

/-- Modelled from the spec: print the module's textual IR (the exact grammar
is native-owned and not modelled); a null or dangling module handle is a
native fault. -/
def nativePrintModuleToString (s : NativeState) (m : Option Nat) :
    String × NativeState :=
  match m with
  | none => ("", s.fault)
  | some mh =>
    match findModule s mh with
    | none => ("", s.fault)
    | some _ => ("", s)

/-- Modelled from the spec: add a function declaration with the given name
and type to the module, allocating a value handle for the function and one
per parameter of its function type; a null or dangling module handle is a
native fault. -/
def nativeAddFunction (s : NativeState) (m : Option Nat) (name : String)
    (ty : Option Nat) : Option Nat × NativeState :=
  match m with
  | none => (none, s.fault)
  | some mh =>
    match findModule s mh with
    | none => (none, s.fault)
    | some _ =>
      let paramTys := match ty with
        | none => []
        | some th => match findFnType s th with
          | none => []
          | some ft => ft.params
      let fh := s.nextHandle
      let ps := List.range' (s.nextHandle + 1) paramTys.length
      let s := { s with nextHandle := s.nextHandle + 1 + paramTys.length }
      (some fh,
       updModule s mh (fun md =>
         { md with functions := md.functions ++ [⟨name, fh, ty, ps⟩] }))

/-- Modelled from the spec: look up a function by name in the module,
returning the first function with that name or a null handle; a null or
dangling module handle is a native fault. -/
def nativeGetNamedFunction (s : NativeState) (m : Option Nat)
    (name : String) : Option Nat × NativeState :=
  match m with
  | none => (none, s.fault)
  | some mh =>
    match findModule s mh with
    | none => (none, s.fault)
    | some md => ((md.functions.find? (fun f => f.name == name)).map (·.handle), s)

/-- Modelled from the spec: delete a function from its owning module; a null
handle is a native fault. -/
def nativeDeleteFunction (s : NativeState) (f : Option Nat) : NativeState :=
  match f with
  | none => s.fault
  | some fh =>
    { s with modules := s.modules.map (fun md =>
        { md with functions := md.functions.filter (fun fd => fd.handle != fh) }) }

/-- Modelled from the spec: construct a function type from a return type and
parameter types. -/
def nativeFunctionType (s : NativeState) (ret : Option Nat)
    (params : List (Option Nat)) : Nat × NativeState :=
  let (h, s) := s.fresh
  (h, { s with fnTypes := s.fnTypes ++ [⟨h, ret, params⟩] })

/-- Modelled from the spec: construct a struct type from element types. -/
def nativeStructType (s : NativeState) (elems : List (Option Nat))
    (packed : Bool) : Nat × NativeState :=
  let (h, s) := s.fresh
  (h, { s with structTypes := s.structTypes ++ [⟨h, elems, packed⟩] })

/-- Modelled from the spec: number of elements of a struct type; a null or
unknown handle is a native fault. -/
def nativeCountStructElementTypes (s : NativeState) (t : Option Nat) :
    Nat × NativeState :=
  match t with
  | none => (0, s.fault)
  | some th =>
    match findStruct s th with
    | none => (0, s.fault)
    | some st => (st.elems.length, s)

/-- Modelled from the spec: the element type of a struct type at an index; a
null or unknown handle is a native fault. -/
def nativeStructGetTypeAtIndex (s : NativeState) (t : Option Nat) (i : Nat) :
    Option Nat × NativeState :=
  match t with
  | none => (none, s.fault)
  | some th =>
    match findStruct s th with
    | none => (none, s.fault)
    | some st => (st.elems.getD i none, s)

/-- Modelled from the spec: a type factory that allocates a fresh composite
type handle (array and pointer types; their structural metadata is not
needed by any claim, so only the handle is modelled). -/
def nativeFreshType (s : NativeState) : Nat × NativeState := s.fresh

/-- Modelled from the spec: a constant factory allocating a fresh value
handle for the requested constant. -/
def nativeFreshValue (s : NativeState) : Nat × NativeState := s.fresh

/-- Modelled from the spec: read a value's symbolic name; a null handle is a
native fault. -/
def nativeGetValueName (s : NativeState) (v : Option Nat) :
    String × NativeState :=
  match v with
  | none => ("", s.fault)
  | some vh => (((s.names.find? (fun p => p.1 == vh)).map (·.2)).getD "", s)

/-- Modelled from the spec: set a value's symbolic name; a null handle is a
native fault. -/
def nativeSetValueName (s : NativeState) (v : Option Nat) (name : String) :
    NativeState :=
  match v with
  | none => s.fault
  | some vh => { s with names := ⟨vh, name⟩ :: s.names.filter (fun p => p.1 != vh) }

/-- Modelled from the spec: append a fresh, empty basic block to the end of
a function's block sequence; a null function handle is a native fault. -/
def nativeAppendBasicBlock (s : NativeState) (f : Option Nat) :
    Option Nat × NativeState :=
  match f with
  | none => (none, s.fault)
  | some fh =>
    let (bh, s) := s.fresh
    (some bh, { s with blocks := s.blocks ++ [⟨bh, some fh, []⟩] })

/-- Modelled from the spec: the entry (first appended) basic block of a
function, or a null handle when it has none; a null function handle is a
native fault. -/
def nativeGetEntryBasicBlock (s : NativeState) (f : Option Nat) :
    Option Nat × NativeState :=
  match f with
  | none => (none, s.fault)
  | some fh =>
    (((s.blocks.find? (fun b => b.parent == some fh)).map (·.handle)), s)

/-- Modelled from the spec: the number of parameters of a function; a null
handle is a native fault. -/
def nativeCountParams (s : NativeState) (f : Option Nat) :
    Nat × NativeState :=
  match f with
  | none => (0, s.fault)
  | some fh =>
    match (s.modules.flatMap (·.functions)).find? (fun fd => fd.handle == fh) with
    | none => (0, s.fault)
    | some fd => (fd.params.length, s)

/-- Modelled from the spec: the parameter value of a function at an index; a
null handle is a native fault. -/
def nativeGetParam (s : NativeState) (f : Option Nat) (i : Nat) :
    Option Nat × NativeState :=
  match f with
  | none => (none, s.fault)
  | some fh =>
    match (s.modules.flatMap (·.functions)).find? (fun fd => fd.handle == fh) with
    | none => (none, s.fault)
    | some fd => (fd.params.get? i, s)

/-- Modelled from the spec: the parent function of a basic block; a null or
unknown block handle is a native fault. -/
def nativeGetBasicBlockParent (s : NativeState) (b : Option Nat) :
    Option Nat × NativeState :=
  match b with
  | none => (none, s.fault)
  | some bh =>
    match findBlock s bh with
    | none => (none, s.fault)
    | some bl => (bl.parent, s)

/-- Modelled from the spec: the first instruction of a basic block, or a
null handle when the block is empty. -/
def nativeGetFirstInstruction (s : NativeState) (b : Option Nat) :
    Option Nat × NativeState :=
  match b with
  | none => (none, s.fault)
  | some bh =>
    match findBlock s bh with
    | none => (none, s.fault)
    | some bl => (bl.instrs.head?, s)

/-- Modelled from the spec: the last instruction of a basic block, or a
null handle when the block is empty. -/
def nativeGetLastInstruction (s : NativeState) (b : Option Nat) :
    Option Nat × NativeState :=
  match b with
  | none => (none, s.fault)
  | some bh =>
    match findBlock s bh with
    | none => (none, s.fault)
    | some bl => (bl.instrs.getLast?, s)

/-- Modelled from the spec: builder creation allocates a fresh, unpositioned
builder. -/
def nativeCreateBuilder (s : NativeState) : Nat × NativeState :=
  let (h, s) := s.fresh
  (h, { s with builders := s.builders ++ [⟨h, none⟩] })

/-- Modelled from the spec: disposing a builder releases it; disposal calls
are assumed infallible (spec §7), so a null handle disposes nothing. -/
def nativeDisposeBuilder (s : NativeState) (b : Option Nat) : NativeState :=
  match b with
  | none => s
  | some bh => { s with builders := s.builders.filter (fun st => st.handle != bh) }

/-- Modelled from the spec: the block the builder is currently positioned
in, or a null handle when unpositioned; a null builder handle is a native
fault. -/
def nativeGetInsertBlock (s : NativeState) (b : Option Nat) :
    Option Nat × NativeState :=
  match b with
  | none => (none, s.fault)
  | some bh =>
    match findBuilder s bh with
    | none => (none, s.fault)
    | some st => (st.pos.map (·.block), s)

/-- Modelled from the spec: position the builder at the end of a block's
instruction sequence; bad handles are a native fault. -/
def nativePositionBuilderAtEnd (s : NativeState) (b blk : Option Nat) :
    NativeState :=
  match b, blk with
  | some bh, some kh =>
    match findBuilder s bh, findBlock s kh with
    | some _, some bl =>
      updBuilder s bh (fun st => { st with pos := some ⟨kh, bl.instrs.length⟩ })
    | _, _ => s.fault
  | _, _ => s.fault

/-- Modelled from the spec: position the builder immediately before the
given instruction inside the block that contains it; bad handles are a
native fault. -/
def nativePositionBuilderBefore (s : NativeState) (b instr : Option Nat) :
    NativeState :=
  match b, instr with
  | some bh, some ih =>
    match findBuilder s bh,
          s.blocks.find? (fun bl => bl.instrs.contains ih) with
    | some _, some bl =>
      updBuilder s bh
        (fun st => { st with pos := some ⟨bl.handle, bl.instrs.indexOf ih⟩ })
    | _, _ => s.fault
  | _, _ => s.fault

/-- Modelled from the spec: position the builder immediately after the given
instruction within the given block; bad handles are a native fault. -/
def nativePositionBuilder (s : NativeState) (b blk instr : Option Nat) :
    NativeState :=
  match b, blk, instr with
  | some bh, some kh, some ih =>
    match findBuilder s bh, findBlock s kh with
    | some _, some bl =>
      updBuilder s bh
        (fun st => { st with pos := some ⟨kh, bl.instrs.indexOf ih + 1⟩ })
    | _, _ => s.fault
  | _, _, _ => s.fault

/-- Modelled from the spec (§4.6): an instruction-building native call on a
positioned builder allocates a fresh instruction handle, inserts it into the
builder's current block at the current offset, and advances the position to
just after the newly inserted instruction.  Building with a null, unknown or
unpositioned builder is a native fault. -/
def nativeBuildInsert (s : NativeState) (b : Option Nat) :
    Option Nat × NativeState :=
  match b with
  | none => (none, s.fault)
  | some bh =>
    match findBuilder s bh with
    | none => (none, s.fault)
    | some bst =>
      match bst.pos with
      | none => (none, s.fault)
      | some p =>
        match findBlock s p.block with
        | none => (none, s.fault)
        | some _ =>
          let (ih, s) := s.fresh
          let s := updBlock s p.block
            (fun k => { k with instrs := insertAt p.offset ih k.instrs })
          let s := updBuilder s bh
            (fun st => { st with pos := some ⟨p.block, p.offset + 1⟩ })
          (some ih, s)

/-- Modelled from the spec: create a target machine. -/
def nativeCreateTargetMachine (s : NativeState) (tgt : Option Nat) :
    Nat × NativeState :=
  let (h, s) := s.fresh
  (h, { s with targetMachines := s.targetMachines ++ [⟨h, tgt⟩] })

/-- Modelled from the spec: the target a target machine was created for; a
null handle is a native fault. -/
def nativeGetTargetMachineTarget (s : NativeState) (tm : Option Nat) :
    Option Nat × NativeState :=
  match tm with
  | none => (none, s.fault)
  | some th =>
    (((s.targetMachines.find? (fun p => p.1 == th)).map (·.2)).getD none, s)

/-- Modelled from the spec (§4.7): resolving a target triple either succeeds
with the target handle registered for that triple, or signals failure by a
non-zero status when no statically-initialized backend resolves the triple.
The boolean is the C status: `true` means failure. -/
def nativeGetTargetFromTriple (s : NativeState) (triple : String) :
    Bool × Option Nat × NativeState :=
  match s.targets.find? (fun p => p.1 == triple) with
  | some p => (false, some p.2, s)
  | none => (true, none, s)

/-! ### Wrapper classes, translated from `wrapped.ts`

Each TypeScript class holding `ref: any` (inherited from the base class
`Ref`) becomes a one-field structure.  Since Lean has no subtyping, the
polymorphic helper `genPtrArray(array: Ref[])` takes the `ref` accessor of
the element class as an explicit function argument. -/

/-- Class `Context`. -/
structure Context where
  ref : Option Nat
  deriving DecidableEq, Repr

/-- Class `Module`. -/
structure Module where
  ref : Option Nat
  deriving DecidableEq, Repr

/-- Class `Type` of the source (named `Typ` because `Type` is a Lean
keyword). -/
structure Typ where
  ref : Option Nat
  deriving DecidableEq, Repr

/-- Class `VoidType`. -/
structure VoidType where
  ref : Option Nat
  deriving DecidableEq, Repr

/-- Class `IntType`. -/
structure IntType where
  ref : Option Nat
  deriving DecidableEq, Repr

/-- Class `FloatType`. -/
structure FloatType where
  ref : Option Nat
  deriving DecidableEq, Repr

/-- Class `FunctionType`. -/
structure FunctionType where
  ref : Option Nat
  deriving DecidableEq, Repr

/-- Class `StructType`. -/
structure StructType where
  ref : Option Nat
  deriving DecidableEq, Repr

/-- Class `ArrayType`. -/
structure ArrayType where
  ref : Option Nat
  deriving DecidableEq, Repr

/-- Class `PointerType`. -/
structure PointerType where
  ref : Option Nat
  deriving DecidableEq, Repr

/-- Class `Value`. -/
structure Value where
  ref : Option Nat
  deriving DecidableEq, Repr

/-- Class `Function` (a `Value` wrapping a function). -/
structure Function where
  ref : Option Nat
  deriving DecidableEq, Repr

/-- Class `ConstInt`. -/
structure ConstInt where
  ref : Option Nat
  deriving DecidableEq, Repr

/-- Class `ConstFloat`. -/
structure ConstFloat where
  ref : Option Nat
  deriving DecidableEq, Repr

/-- Class `ConstString`. -/
structure ConstString where
  ref : Option Nat
  deriving DecidableEq, Repr

/-- Class `ConstStruct`. -/
structure ConstStruct where
  ref : Option Nat
  deriving DecidableEq, Repr

/-- Class `ConstArray`. -/
structure ConstArray where
  ref : Option Nat
  deriving DecidableEq, Repr

/-- Class `BasicBlock`. -/
structure BasicBlock where
  ref : Option Nat
  deriving DecidableEq, Repr

/-- Class `Builder`. -/
structure Builder where
  ref : Option Nat
  deriving DecidableEq, Repr

/-- Class `TargetMachine`. -/
structure TargetMachine where
  ref : Option Nat
  deriving DecidableEq, Repr

/-- Class `TargetData`. -/
structure TargetData where
  ref : Option Nat
  deriving DecidableEq, Repr

/-- Class `Target`. -/
structure Target where
  ref : Option Nat
  deriving DecidableEq, Repr

/-- What a JavaScript expression evaluates to at runtime when its static
type is a wrapper class: either an actual wrapper instance (constructed by
`new Value(...)`), or a raw native handle returned directly from the FFI
without wrapping. -/
inductive JSValue where
  | wrapped : Value → JSValue
  | raw : Option Nat → JSValue
  deriving DecidableEq, Repr

/-- Whether a runtime value is an actual wrapper instance. -/
def JSValue.isWrapped : JSValue → Bool
  | .wrapped _ => true
  | .raw _ => false

/-- The loop of `genPtrArray`: `for (let elem of array) { ptrArray[i] =
array[i].ref; ++i; }`, iterating over the element list while indexing the
original array. -/
def genPtrArrayGo (rf : α → Option Nat) (array : List α)
    (ptrArray : List (Option Nat)) (i : Nat) : List α → List (Option Nat)
  | [] => ptrArray
  | _elem :: rest =>
    genPtrArrayGo rf array
      (ptrArray.set i (((array.get? i).map rf).getD none)) (i + 1) rest

/-- `genPtrArray(array: Ref[])`: convert a wrapper array to a
`PointerArray` of the wrappers' handles.  `new PointerArray(array.length)`
is a fresh length-`array.length` array of null pointers; `rf` is the `ref`
field accessor of the element class. -/
def genPtrArray (rf : α → Option Nat) (array : List α) : List (Option Nat) :=
  genPtrArrayGo rf array (List.replicate array.length none) 0 array

/-! ### Context methods -/

/-- `Context.create()`. -/
def Context.create (s : NativeState) : Context × NativeState :=
  let s := s.emit "LLVMContextCreate" []
  let (cref, s) := s.fresh
  (⟨some cref⟩, s)

/-- `Context.getGlobal()`. -/
def Context.getGlobal (s : NativeState) : Context × NativeState :=
  let s := s.emit "LLVMGetGlobalContext" []
  (⟨some globalContextHandle⟩, s)

/-! ### Module methods -/

/-- `Module.create(name, ctx?)`: note the source passes the `Context`
wrapper object `ctx` itself (recorded as an `FFIArg.obj`), not `ctx.ref`, to
the in-context creation call.  The `finalize(mod, ...)` registration is
modelled by `Module.gcFinalize` below. -/
def Module.create (name : String) (ctx : Option Context) (s : NativeState) :
    Module × NativeState :=
  let (modref, s) :=
    match ctx with
    | some c =>
      let s := s.emit "LLVMModuleCreateWithNameInContext" [.str name, .obj c.ref]
      nativeCreateModule s
    | none =>
      let s := s.emit "LLVMModuleCreateWithName" [.str name]
      nativeCreateModule s
  (⟨some modref⟩, s)

/-- `Module.free()`: disposes the native module and nulls the wrapper's
handle.  The updated wrapper (with `ref = null`) is returned, standing for
the mutation `this.ref = null`. -/
def Module.free (_this : Module) (s : NativeState) : Module × NativeState :=
  let s := s.emit "LLVMDisposeModule" [.handle _this.ref]
  let s := nativeDisposeModule s _this.ref
  (⟨none⟩, s)

/-- Modelled from the spec (§5): the finalization backstop registered by
`finalize(mod, ...)` in `Module.create` invokes `free` on the captured
wrapper object when the collector finalizes it. -/
def Module.gcFinalize (_this : Module) (s : NativeState) :
    Module × NativeState :=
  Module.free _this s

/-- `Module.setTarget(targetTriple)`. -/
def Module.setTarget (_this : Module) (targetTriple : String)
    (s : NativeState) : NativeState :=
  let s := s.emit "LLVMSetTarget" [.handle _this.ref, .str targetTriple]
  nativeSetTarget s _this.ref targetTriple

/-- `Module.setDataLayout(triple)`. -/
def Module.setDataLayout (_this : Module) (triple : String)
    (s : NativeState) : NativeState :=
  let s := s.emit "LLVMSetDataLayout" [.handle _this.ref, .str triple]
  nativeSetDataLayout s _this.ref triple

/-- `Module.writeBitcodeToFile(filename)`. -/
def Module.writeBitcodeToFile (_this : Module) (filename : String)
    (s : NativeState) : Int × NativeState :=
  let s := s.emit "LLVMWriteBitcodeToFile" [.handle _this.ref, .str filename]
  nativeWriteBitcodeToFile s _this.ref

/-- `Module.toString()`. -/
def Module.toString (_this : Module) (s : NativeState) :
    String × NativeState :=
  let s := s.emit "LLVMPrintModuleToString" [.handle _this.ref]
  nativePrintModuleToString s _this.ref

/-- `Module.addFunction(name, type)`. -/
def Module.addFunction (_this : Module) (name : String)
    (type : FunctionType) (s : NativeState) : Function × NativeState :=
  let s := s.emit "LLVMAddFunction" [.handle _this.ref, .str name, .handle type.ref]
  let (funcref, s) := nativeAddFunction s _this.ref name type.ref
  (⟨funcref⟩, s)

/-- `Module.getFunction(name)`. -/
def Module.getFunction (_this : Module) (name : String) (s : NativeState) :
    Function × NativeState :=
  let s := s.emit "LLVMGetNamedFunction" [.handle _this.ref, .str name]
  let (funcref, s) := nativeGetNamedFunction s _this.ref name
  (⟨funcref⟩, s)

/-- `Module.getOrInsertFunction(name, type)`: looks the function up by name
and only creates one when absent; the existing function's type is not
compared with the requested type. -/
def Module.getOrInsertFunction (_this : Module) (name : String)
    (type : FunctionType) (s : NativeState) : Function × NativeState :=
  let (func, s) := _this.getFunction name s
  if func.ref.isNone then
    _this.addFunction name type s
  else
    (func, s)

/-! ### Type factory methods -/

/-- `VoidType.create()`. -/
def VoidType.create (s : NativeState) : VoidType × NativeState :=
  let s := s.emit "LLVMVoidType" []
  (⟨some voidTypeHandle⟩, s)

/-- `IntType.createInt1()`. -/
def IntType.createInt1 (s : NativeState) : IntType × NativeState :=
  let s := s.emit "LLVMInt1Type" []
  (⟨some int1TypeHandle⟩, s)

/-- `IntType.createInt8()`. -/
def IntType.createInt8 (s : NativeState) : IntType × NativeState :=
  let s := s.emit "LLVMInt8Type" []
  (⟨some int8TypeHandle⟩, s)

/-- `IntType.createInt16()`. -/
def IntType.createInt16 (s : NativeState) : IntType × NativeState :=
  let s := s.emit "LLVMInt16Type" []
  (⟨some int16TypeHandle⟩, s)

/-- `IntType.createInt32()`. -/
def IntType.createInt32 (s : NativeState) : IntType × NativeState :=
  let s := s.emit "LLVMInt32Type" []
  (⟨some int32TypeHandle⟩, s)

/-- `IntType.createInt64()`. -/
def IntType.createInt64 (s : NativeState) : IntType × NativeState :=
  let s := s.emit "LLVMInt64Type" []
  (⟨some int64TypeHandle⟩, s)

/-- `IntType.createInt128()`. -/
def IntType.createInt128 (s : NativeState) : IntType × NativeState :=
  let s := s.emit "LLVMInt128Type" []
  (⟨some int128TypeHandle⟩, s)

/-- `FloatType.createFloat()`. -/
def FloatType.createFloat (s : NativeState) : FloatType × NativeState :=
  let s := s.emit "LLVMFloatType" []
  (⟨some floatTypeHandle⟩, s)

/-- `FloatType.createDouble()`. -/
def FloatType.createDouble (s : NativeState) : FloatType × NativeState :=
  let s := s.emit "LLVMDoubleType" []
  (⟨some doubleTypeHandle⟩, s)

/-- `FunctionType.create(ret, params, isVarArg)` (`isVarArg` defaults to
`false` at TypeScript call sites). -/
def FunctionType.create (ret : Typ) (params : List Typ) (isVarArg : Bool)
    (s : NativeState) : FunctionType × NativeState :=
  let pa := genPtrArray Typ.ref params
  let s := s.emit "LLVMFunctionType"
    [.handle ret.ref, .ptrArr pa, .int params.length, .boolean isVarArg]
  let (ftref, s) := nativeFunctionType s ret.ref pa
  (⟨some ftref⟩, s)

/-- `StructType.create(elementTypes, packed)`. -/
def StructType.create (elementTypes : List Typ) (packed : Bool)
    (s : NativeState) : StructType × NativeState :=
  let _elementTypes := genPtrArray Typ.ref elementTypes
  let s := s.emit "LLVMStructType"
    [.ptrArr _elementTypes, .int elementTypes.length, .boolean packed]
  let (sref, s) := nativeStructType s _elementTypes packed
  (⟨some sref⟩, s)

/-- `StructType.numStructElements()`. -/
def StructType.numStructElements (_this : StructType) (s : NativeState) :
    Nat × NativeState :=
  let s := s.emit "LLVMCountStructElementTypes" [.handle _this.ref]
  nativeCountStructElementTypes s _this.ref

/-- `StructType.getTypeAt(index)`. -/
def StructType.getTypeAt (_this : StructType) (index : Nat)
    (s : NativeState) : Typ × NativeState :=
  let s := s.emit "LLVMStructGetTypeAtIndex" [.handle _this.ref, .int index]
  let (tref, s) := nativeStructGetTypeAtIndex s _this.ref index
  (⟨tref⟩, s)

/-- The loop body of the generator `StructType.types()`: yield
`getTypeAt(i)` for `i` from the current index while `n` iterations remain. -/
def typesGo (_this : StructType) : Nat → Nat → NativeState →
    List Typ × NativeState
  | _, 0, s => ([], s)
  | i, n + 1, s =>
    let (t, s) := _this.getTypeAt i s
    let (rest, s) := typesGo _this (i + 1) n s
    (t :: rest, s)

/-- `StructType.types()`: the generator yielding `getTypeAt(i)` for
`0 ≤ i < numStructElements()`, as the finite list of yielded types. -/
def StructType.types (_this : StructType) (s : NativeState) :
    List Typ × NativeState :=
  let (count, s) := _this.numStructElements s
  typesGo _this 0 count s

/-- `ArrayType.create(type, count)`. -/
def ArrayType.create (type : Typ) (count : Nat) (s : NativeState) :
    ArrayType × NativeState :=
  let s := s.emit "LLVMArrayType" [.handle type.ref, .int count]
  let (aref, s) := nativeFreshType s
  (⟨some aref⟩, s)

/-- `PointerType.create(type, addressSpace)`. -/
def PointerType.create (type : Typ) (addressSpace : Nat) (s : NativeState) :
    PointerType × NativeState :=
  let s := s.emit "LLVMPointerType" [.handle type.ref, .int addressSpace]
  let (pref, s) := nativeFreshType s
  (⟨some pref⟩, s)

/-! ### Value methods -/

/-- `Value.getUndef(type)`. -/
def Value.getUndef (type : Typ) (s : NativeState) : Value × NativeState :=
  let s := s.emit "LLVMGetUndef" [.handle type.ref]
  let (vref, s) := nativeFreshValue s
  (⟨some vref⟩, s)

/-- `Value.constNull(type)`. -/
def Value.constNull (type : Typ) (s : NativeState) : Value × NativeState :=
  let s := s.emit "LLVMConstNull" [.handle type.ref]
  let (vref, s) := nativeFreshValue s
  (⟨some vref⟩, s)

/-- `Value.constPointerNull(type)`. -/
def Value.constPointerNull (type : Typ) (s : NativeState) :
    Value × NativeState :=
  let s := s.emit "LLVMConstPointerNull" [.handle type.ref]
  let (vref, s) := nativeFreshValue s
  (⟨some vref⟩, s)

/-- `Value.getName()`. -/
def Value.getName (_this : Value) (s : NativeState) : String × NativeState :=
  let s := s.emit "LLVMGetValueName" [.handle _this.ref]
  nativeGetValueName s _this.ref

/-- `Value.setName(name)`. -/
def Value.setName (_this : Value) (name : String) (s : NativeState) :
    NativeState :=
  let s := s.emit "LLVMSetValueName" [.handle _this.ref, .str name]
  nativeSetValueName s _this.ref name

/-! ### Function methods -/

/-- `Function.appendBasicBlock(name)`. -/
def Function.appendBasicBlock (_this : Function) (name : String)
    (s : NativeState) : BasicBlock × NativeState :=
  let s := s.emit "LLVMAppendBasicBlock" [.handle _this.ref, .str name]
  let (bbref, s) := nativeAppendBasicBlock s _this.ref
  (⟨bbref⟩, s)

/-- `Function.getEntryBlock()`. -/
def Function.getEntryBlock (_this : Function) (s : NativeState) :
    BasicBlock × NativeState :=
  let s := s.emit "LLVMGetEntryBasicBlock" [.handle _this.ref]
  let (bbref, s) := nativeGetEntryBasicBlock s _this.ref
  (⟨bbref⟩, s)

/-- `Function.countParams()`. -/
def Function.countParams (_this : Function) (s : NativeState) :
    Nat × NativeState :=
  let s := s.emit "LLVMCountParams" [.handle _this.ref]
  nativeCountParams s _this.ref

/-- `Function.getParam(idx)`. -/
def Function.getParam (_this : Function) (idx : Nat) (s : NativeState) :
    Value × NativeState :=
  let s := s.emit "LLVMGetParam" [.handle _this.ref, .int idx]
  let (vref, s) := nativeGetParam s _this.ref idx
  (⟨vref⟩, s)

/-- The loop body of the generator `Function.params()`. -/
def paramsGo (_this : Function) : Nat → Nat → NativeState →
    List Value × NativeState
  | _, 0, s => ([], s)
  | i, n + 1, s =>
    let (v, s) := _this.getParam i s
    let (rest, s) := paramsGo _this (i + 1) n s
    (v :: rest, s)

/-- `Function.params()`: the generator yielding `getParam(i)` for
`0 ≤ i < countParams()`. -/
def Function.params (_this : Function) (s : NativeState) :
    List Value × NativeState :=
  let (count, s) := _this.countParams s
  paramsGo _this 0 count s

/-- `Function.deleteFromParent()`. -/
def Function.deleteFromParent (_this : Function) (s : NativeState) :
    NativeState :=
  let s := s.emit "LLVMDeleteFunction" [.handle _this.ref]
  nativeDeleteFunction s _this.ref

/-! ### Constant factory methods -/

/-- `ConstInt.create(value, type)`: the sign-extension flag handed to
`LLVMConstInt` is the literal `false`. -/
def ConstInt.create (value : Int) (type : Typ) (s : NativeState) :
    ConstInt × NativeState :=
  let s := s.emit "LLVMConstInt" [.handle type.ref, .int value, .boolean false]
  let (vref, s) := nativeFreshValue s
  (⟨some vref⟩, s)

/-- `ConstInt.createFalse()`: `LLVMConstInt(LLVMInt1Type(), 0, false)`. -/
def ConstInt.createFalse (s : NativeState) : ConstInt × NativeState :=
  let s := s.emit "LLVMInt1Type" []
  let s := s.emit "LLVMConstInt"
    [.handle (some int1TypeHandle), .int 0, .boolean false]
  let (vref, s) := nativeFreshValue s
  (⟨some vref⟩, s)

/-- `ConstInt.createTrue()`: `LLVMConstInt(LLVMInt1Type(), 1, false)`. -/
def ConstInt.createTrue (s : NativeState) : ConstInt × NativeState :=
  let s := s.emit "LLVMInt1Type" []
  let s := s.emit "LLVMConstInt"
    [.handle (some int1TypeHandle), .int 1, .boolean false]
  let (vref, s) := nativeFreshValue s
  (⟨some vref⟩, s)

/-- `ConstFloat.create(value, type)` (the `number` argument is embedded as
an integer; floating-point values are outside the model's scope). -/
def ConstFloat.create (value : Int) (type : Typ) (s : NativeState) :
    ConstFloat × NativeState :=
  let s := s.emit "LLVMConstReal" [.handle type.ref, .int value]
  let (vref, s) := nativeFreshValue s
  (⟨some vref⟩, s)

/-- `ConstString.createInContext(context, value, dontNullTerminate)`. -/
def ConstString.createInContext (context : Context) (value : String)
    (dontNullTerminate : Bool) (s : NativeState) :
    ConstString × NativeState :=
  let s := s.emit "LLVMConstStringInContext"
    [.handle context.ref, .str value, .int value.length, .boolean dontNullTerminate]
  let (vref, s) := nativeFreshValue s
  (⟨some vref⟩, s)

/-- `ConstString.create(value, dontNullTerminate)`. -/
def ConstString.create (value : String) (dontNullTerminate : Bool)
    (s : NativeState) : ConstString × NativeState :=
  let s := s.emit "LLVMConstString"
    [.str value, .int value.length, .boolean dontNullTerminate]
  let (vref, s) := nativeFreshValue s
  (⟨some vref⟩, s)

/-- `ConstStruct.create(vals, packed)`. -/
def ConstStruct.create (vals : List Value) (packed : Bool)
    (s : NativeState) : ConstStruct × NativeState :=
  let _vals := genPtrArray Value.ref vals
  let s := s.emit "LLVMConstStruct"
    [.ptrArr _vals, .int vals.length, .boolean packed]
  let (sref, s) := nativeFreshValue s
  (⟨some sref⟩, s)

/-- `ConstStruct.createNamed(structType, vals)`. -/
def ConstStruct.createNamed (structType : StructType) (vals : List Value)
    (s : NativeState) : ConstStruct × NativeState :=
  let _vals := genPtrArray Value.ref vals
  let s := s.emit "LLVMConstNamedStruct"
    [.handle structType.ref, .ptrArr _vals, .int vals.length]
  let (sref, s) := nativeFreshValue s
  (⟨some sref⟩, s)

/-- `ConstArray.create(type, vals)`. -/
def ConstArray.create (type : Typ) (vals : List Value) (s : NativeState) :
    ConstArray × NativeState :=
  let _vals := genPtrArray Value.ref vals
  let s := s.emit "LLVMConstArray"
    [.handle type.ref, .ptrArr _vals, .int vals.length]
  let (aref, s) := nativeFreshValue s
  (⟨some aref⟩, s)

/-! ### BasicBlock methods -/

/-- `BasicBlock.getParent()`. -/
def BasicBlock.getParent (_this : BasicBlock) (s : NativeState) :
    Function × NativeState :=
  let s := s.emit "LLVMGetBasicBlockParent" [.handle _this.ref]
  let (fref, s) := nativeGetBasicBlockParent s _this.ref
  (⟨fref⟩, s)

/-- `BasicBlock.getFirstInstr()`. -/
def BasicBlock.getFirstInstr (_this : BasicBlock) (s : NativeState) :
    Value × NativeState :=
  let s := s.emit "LLVMGetFirstInstruction" [.handle _this.ref]
  let (vref, s) := nativeGetFirstInstruction s _this.ref
  (⟨vref⟩, s)

/-- `BasicBlock.getLastInstr()`. -/
def BasicBlock.getLastInstr (_this : BasicBlock) (s : NativeState) :
    Value × NativeState :=
  let s := s.emit "LLVMGetLastInstruction" [.handle _this.ref]
  let (vref, s) := nativeGetLastInstruction s _this.ref
  (⟨vref⟩, s)

/-! ### Builder methods -/

/-- `Builder.create(ctx?)`: as in `Module.create`, the source passes the
`Context` wrapper object itself (an `FFIArg.obj`), not `ctx.ref`, to the
in-context creation call. -/
def Builder.create (ctx : Option Context) (s : NativeState) :
    Builder × NativeState :=
  let (bref, s) :=
    match ctx with
    | some c =>
      let s := s.emit "LLVMCreateBuilderInContext" [.obj c.ref]
      nativeCreateBuilder s
    | none =>
      let s := s.emit "LLVMCreateBuilder" []
      nativeCreateBuilder s
  (⟨some bref⟩, s)

/-- `Builder.free()`: disposes the native builder and nulls the wrapper's
handle. -/
def Builder.free (_this : Builder) (s : NativeState) :
    Builder × NativeState :=
  let s := s.emit "LLVMDisposeBuilder" [.handle _this.ref]
  let s := nativeDisposeBuilder s _this.ref
  (⟨none⟩, s)

/-- Modelled from the spec (§5): the finalization backstop registered by
`finalize(builder, ...)` in `Builder.create` invokes `free` on the captured
wrapper object when the collector finalizes it. -/
def Builder.gcFinalize (_this : Builder) (s : NativeState) :
    Builder × NativeState :=
  Builder.free _this s

/-- `Builder.getInsertBlock()`. -/
def Builder.getInsertBlock (_this : Builder) (s : NativeState) :
    BasicBlock × NativeState :=
  let s := s.emit "LLVMGetInsertBlock" [.handle _this.ref]
  let (bbref, s) := nativeGetInsertBlock s _this.ref
  (⟨bbref⟩, s)

/-- `Builder.positionAfter(bb, instr)`. -/
def Builder.positionAfter (_this : Builder) (bb : BasicBlock) (instr : Value)
    (s : NativeState) : NativeState :=
  let s := s.emit "LLVMPositionBuilder"
    [.handle _this.ref, .handle bb.ref, .handle instr.ref]
  nativePositionBuilder s _this.ref bb.ref instr.ref

/-- `Builder.positionBefore(instr)`. -/
def Builder.positionBefore (_this : Builder) (instr : Value)
    (s : NativeState) : NativeState :=
  let s := s.emit "LLVMPositionBuilderBefore" [.handle _this.ref, .handle instr.ref]
  nativePositionBuilderBefore s _this.ref instr.ref

/-- `Builder.positionAtEnd(bb)`. -/
def Builder.positionAtEnd (_this : Builder) (bb : BasicBlock)
    (s : NativeState) : NativeState :=
  let s := s.emit "LLVMPositionBuilderAtEnd" [.handle _this.ref, .handle bb.ref]
  nativePositionBuilderAtEnd s _this.ref bb.ref

/-- `Builder.buildCall(func, args, name)`. -/
def Builder.buildCall (_this : Builder) (func : Value) (args : List Value)
    (name : String) (s : NativeState) : JSValue × NativeState :=
  let s := s.emit "LLVMBuildCall"
    [.handle _this.ref, .handle func.ref, .ptrArr (genPtrArray Value.ref args),
     .int args.length, .str name]
  let (vref, s) := nativeBuildInsert s _this.ref
  (.wrapped ⟨vref⟩, s)

/-- `Builder.buildAlloca(type, name)`. -/
def Builder.buildAlloca (_this : Builder) (type : Typ) (name : String)
    (s : NativeState) : JSValue × NativeState :=
  let s := s.emit "LLVMBuildAlloca" [.handle _this.ref, .handle type.ref, .str name]
  let (vref, s) := nativeBuildInsert s _this.ref
  (.wrapped ⟨vref⟩, s)

/-- `Builder.buildLoad(ptr, name)`. -/
def Builder.buildLoad (_this : Builder) (ptr : Value) (name : String)
    (s : NativeState) : JSValue × NativeState :=
  let s := s.emit "LLVMBuildLoad" [.handle _this.ref, .handle ptr.ref, .str name]
  let (vref, s) := nativeBuildInsert s _this.ref
  (.wrapped ⟨vref⟩, s)

/-- `Builder.buildStore(value, ptr)`. -/
def Builder.buildStore (_this : Builder) (value : Value) (ptr : Value)
    (s : NativeState) : JSValue × NativeState :=
  let s := s.emit "LLVMBuildStore"
    [.handle _this.ref, .handle value.ref, .handle ptr.ref]
  let (vref, s) := nativeBuildInsert s _this.ref
  (.wrapped ⟨vref⟩, s)

/-- `Builder.buildStructGEP(value, idx, name)`. -/
def Builder.buildStructGEP (_this : Builder) (value : Value) (idx : Nat)
    (name : String) (s : NativeState) : JSValue × NativeState :=
  let s := s.emit "LLVMBuildStructGEP"
    [.handle _this.ref, .handle value.ref, .int idx, .str name]
  let (vref, s) := nativeBuildInsert s _this.ref
  (.wrapped ⟨vref⟩, s)

/-- `Builder.buildSIToFP(val, destType, name)`. -/
def Builder.buildSIToFP (_this : Builder) (val : Value) (destType : Typ)
    (name : String) (s : NativeState) : JSValue × NativeState :=
  let s := s.emit "LLVMBuildSIToFP"
    [.handle _this.ref, .handle val.ref, .handle destType.ref, .str name]
  let (vref, s) := nativeBuildInsert s _this.ref
  (.wrapped ⟨vref⟩, s)

/-- `Builder.buildFPToSI(val, destType, name)`. -/
def Builder.buildFPToSI (_this : Builder) (val : Value) (destType : Typ)
    (name : String) (s : NativeState) : JSValue × NativeState :=
  let s := s.emit "LLVMBuildFPToSI"
    [.handle _this.ref, .handle val.ref, .handle destType.ref, .str name]
  let (vref, s) := nativeBuildInsert s _this.ref
  (.wrapped ⟨vref⟩, s)

/-- `Builder.buildBitCast(val, destType, name)`. -/
def Builder.buildBitCast (_this : Builder) (val : Value) (destType : Typ)
    (name : String) (s : NativeState) : JSValue × NativeState :=
  let s := s.emit "LLVMBuildBitCast"
    [.handle _this.ref, .handle val.ref, .handle destType.ref, .str name]
  let (vref, s) := nativeBuildInsert s _this.ref
  (.wrapped ⟨vref⟩, s)

/-- `Builder.buildInsertValue(aggVal, element, idx, name)`. -/
def Builder.buildInsertValue (_this : Builder) (aggVal : Value)
    (element : Value) (idx : Nat) (name : String) (s : NativeState) :
    JSValue × NativeState :=
  let s := s.emit "LLVMBuildInsertValue"
    [.handle _this.ref, .handle aggVal.ref, .handle element.ref, .int idx, .str name]
  let (vref, s) := nativeBuildInsert s _this.ref
  (.wrapped ⟨vref⟩, s)

/-- `Builder.buildAdd(lhs, rhs, name)`. -/
def Builder.buildAdd (_this : Builder) (lhs rhs : Value) (name : String)
    (s : NativeState) : JSValue × NativeState :=
  let s := s.emit "LLVMBuildAdd"
    [.handle _this.ref, .handle lhs.ref, .handle rhs.ref, .str name]
  let (vref, s) := nativeBuildInsert s _this.ref
  (.wrapped ⟨vref⟩, s)

/-- `Builder.buildFAdd(lhs, rhs, name)`. -/
def Builder.buildFAdd (_this : Builder) (lhs rhs : Value) (name : String)
    (s : NativeState) : JSValue × NativeState :=
  let s := s.emit "LLVMBuildFAdd"
    [.handle _this.ref, .handle lhs.ref, .handle rhs.ref, .str name]
  let (vref, s) := nativeBuildInsert s _this.ref
  (.wrapped ⟨vref⟩, s)

/-- `Builder.buildSub(lhs, rhs, name)`. -/
def Builder.buildSub (_this : Builder) (lhs rhs : Value) (name : String)
    (s : NativeState) : JSValue × NativeState :=
  let s := s.emit "LLVMBuildSub"
    [.handle _this.ref, .handle lhs.ref, .handle rhs.ref, .str name]
  let (vref, s) := nativeBuildInsert s _this.ref
  (.wrapped ⟨vref⟩, s)

/-- `Builder.buildFSub(lhs, rhs, name)`. -/
def Builder.buildFSub (_this : Builder) (lhs rhs : Value) (name : String)
    (s : NativeState) : JSValue × NativeState :=
  let s := s.emit "LLVMBuildFSub"
    [.handle _this.ref, .handle lhs.ref, .handle rhs.ref, .str name]
  let (vref, s) := nativeBuildInsert s _this.ref
  (.wrapped ⟨vref⟩, s)

/-- `Builder.buildMul(lhs, rhs, name)`. -/
def Builder.buildMul (_this : Builder) (lhs rhs : Value) (name : String)
    (s : NativeState) : JSValue × NativeState :=
  let s := s.emit "LLVMBuildMul"
    [.handle _this.ref, .handle lhs.ref, .handle rhs.ref, .str name]
  let (vref, s) := nativeBuildInsert s _this.ref
  (.wrapped ⟨vref⟩, s)

/-- `Builder.buildFMul(lhs, rhs, name)`. -/
def Builder.buildFMul (_this : Builder) (lhs rhs : Value) (name : String)
    (s : NativeState) : JSValue × NativeState :=
  let s := s.emit "LLVMBuildFMul"
    [.handle _this.ref, .handle lhs.ref, .handle rhs.ref, .str name]
  let (vref, s) := nativeBuildInsert s _this.ref
  (.wrapped ⟨vref⟩, s)

/-- `Builder.buildNeg(val, name)`. -/
def Builder.buildNeg (_this : Builder) (val : Value) (name : String)
    (s : NativeState) : JSValue × NativeState :=
  let s := s.emit "LLVMBuildNeg" [.handle _this.ref, .handle val.ref, .str name]
  let (vref, s) := nativeBuildInsert s _this.ref
  (.wrapped ⟨vref⟩, s)

/-- `Builder.buildFNeg(val, name)`. -/
def Builder.buildFNeg (_this : Builder) (val : Value) (name : String)
    (s : NativeState) : JSValue × NativeState :=
  let s := s.emit "LLVMBuildFNeg" [.handle _this.ref, .handle val.ref, .str name]
  let (vref, s) := nativeBuildInsert s _this.ref
  (.wrapped ⟨vref⟩, s)

/-- `Builder.buildRet(arg)`: unlike every other `build*` method, the source
returns the FFI result directly (`return LLVM.LLVMBuildRet(this.ref,
arg.ref)`), without wrapping it in `new Value(...)`; the runtime result is
therefore the raw native handle. -/
def Builder.buildRet (_this : Builder) (arg : Value) (s : NativeState) :
    JSValue × NativeState :=
  let s := s.emit "LLVMBuildRet" [.handle _this.ref, .handle arg.ref]
  let (vref, s) := nativeBuildInsert s _this.ref
  (.raw vref, s)

/-! ### Target layer methods -/

/-- `TargetMachine.create(target, triple, cpu, features, opt_level,
reloc_mode, code_model)` (the last five arguments have TypeScript default
values `""`, `""`, `2`, `0`, `0`). -/
def TargetMachine.create (target : Target) (triple : String) (cpu : String)
    (features : String) (opt_level : Int) (reloc_mode : Int)
    (code_model : Int) (s : NativeState) : TargetMachine × NativeState :=
  let s := s.emit "LLVMCreateTargetMachine"
    [.handle target.ref, .str triple, .str cpu, .str features,
     .int opt_level, .int reloc_mode, .int code_model]
  let (tmref, s) := nativeCreateTargetMachine s target.ref
  (⟨some tmref⟩, s)

/-- `TargetMachine.getDefaultTargetTriple()`. -/
def TargetMachine.getDefaultTargetTriple (s : NativeState) :
    String × NativeState :=
  let s := s.emit "LLVMGetDefaultTargetTriple" []
  (defaultTargetTripleString, s)

/-- `TargetMachine.getTargetMachineTarget()`. -/
def TargetMachine.getTargetMachineTarget (_this : TargetMachine)
    (s : NativeState) : Target × NativeState :=
  let s := s.emit "LLVMGetTargetMachineTarget" [.handle _this.ref]
  let (tref, s) := nativeGetTargetMachineTarget s _this.ref
  (⟨tref⟩, s)

/-- `TargetMachine.createDataLayout()`. -/
def TargetMachine.createDataLayout (_this : TargetMachine)
    (s : NativeState) : TargetData × NativeState :=
  let s := s.emit "LLVMCreateTargetDataLayout" [.handle _this.ref]
  let (tdref, s) := s.fresh
  (⟨some tdref⟩, s)

/-- `TargetData.toString()`. -/
def TargetData.toString (_this : TargetData) (s : NativeState) :
    String × NativeState :=
  let s := s.emit "LLVMCopyStringRepOfTargetData" [.handle _this.ref]
  ("", s)

/-- `Target.getFromTriple(triple)`: allocates out-parameters for the target
handle and the error message, calls `LLVMGetTargetFromTriple`, and throws
the string `"error retrieving target"` when the native status signals
failure; otherwise returns a `Target` wrapping the dereferenced out
pointer.  The thrown failure is embedded as `Except.error`. -/
def Target.getFromTriple (triple : String) (s : NativeState) :
    Except String Target × NativeState :=
  let s := s.emit "LLVMGetTargetFromTriple"
    [.str triple, .outPtr "target_ptr", .outPtr "error_ptr"]
  let (status, target_ptr, s) := nativeGetTargetFromTriple s triple
  if status then
    (.error "error retrieving target", s)
  else
    (.ok ⟨target_ptr⟩, s)

/-- `Target.description()`. -/
def Target.description (_this : Target) (s : NativeState) :
    String × NativeState :=
  let s := s.emit "LLVMGetTargetDescription" [.handle _this.ref]
  ("", s)

/-- `Target.name()`. -/
def Target.name (_this : Target) (s : NativeState) : String × NativeState :=
  let s := s.emit "LLVMGetTargetName" [.handle _this.ref]
  ("", s)

/-- `Target.toString()`: just `this.name()`. -/
def Target.toString (_this : Target) (s : NativeState) :
    String × NativeState :=
  _this.name s

/-- `initX86Target()`. -/
def initX86Target (s : NativeState) : NativeState :=
  let s := s.emit "LLVMInitializeX86TargetInfo" []
  let s := s.emit "LLVMInitializeX86Target" []
  s.emit "LLVMInitializeX86TargetMC" []

/-! ### Enumerations of operations, for quantified theorems -/

/-- One invocation of a `build*` method of `Builder`, with its arguments. -/
inductive BuildCall where
  | call (func : Value) (args : List Value) (name : String)
  | alloca (type : Typ) (name : String)
  | load (ptr : Value) (name : String)
  | store (value : Value) (ptr : Value)
  | structGEP (value : Value) (idx : Nat) (name : String)
  | siToFP (val : Value) (destType : Typ) (name : String)
  | fpToSI (val : Value) (destType : Typ) (name : String)
  | bitCast (val : Value) (destType : Typ) (name : String)
  | insertValue (aggVal : Value) (element : Value) (idx : Nat) (name : String)
  | add (lhs rhs : Value) (name : String)
  | fadd (lhs rhs : Value) (name : String)
  | sub (lhs rhs : Value) (name : String)
  | fsub (lhs rhs : Value) (name : String)
  | mul (lhs rhs : Value) (name : String)
  | fmul (lhs rhs : Value) (name : String)
  | neg (val : Value) (name : String)
  | fneg (val : Value) (name : String)
  | ret (arg : Value)
  deriving DecidableEq, Repr

/-- Whether the invocation is the `buildRet` one. -/
def BuildCall.isRet : BuildCall → Bool
  | .ret _ => true
  | _ => false

/-- Apply one `build*` invocation to a builder. -/
def Builder.dispatchBuild (_this : Builder) :
    BuildCall → NativeState → JSValue × NativeState
  | .call func args name => _this.buildCall func args name
  | .alloca type name => _this.buildAlloca type name
  | .load ptr name => _this.buildLoad ptr name
  | .store value ptr => _this.buildStore value ptr
  | .structGEP value idx name => _this.buildStructGEP value idx name
  | .siToFP val destType name => _this.buildSIToFP val destType name
  | .fpToSI val destType name => _this.buildFPToSI val destType name
  | .bitCast val destType name => _this.buildBitCast val destType name
  | .insertValue aggVal element idx name =>
      _this.buildInsertValue aggVal element idx name
  | .add lhs rhs name => _this.buildAdd lhs rhs name
  | .fadd lhs rhs name => _this.buildFAdd lhs rhs name
  | .sub lhs rhs name => _this.buildSub lhs rhs name
  | .fsub lhs rhs name => _this.buildFSub lhs rhs name
  | .mul lhs rhs name => _this.buildMul lhs rhs name
  | .fmul lhs rhs name => _this.buildFMul lhs rhs name
  | .neg val name => _this.buildNeg val name
  | .fneg val name => _this.buildFNeg val name
  | .ret arg => _this.buildRet arg

/-- One invocation of a (non-`free`) `Module` method, with its arguments. -/
inductive ModuleOp where
  | setTarget (targetTriple : String)
  | setDataLayout (triple : String)
  | writeBitcodeToFile (filename : String)
  | toStr
  | addFunction (name : String) (type : FunctionType)
  | getFunction (name : String)
  | getOrInsertFunction (name : String) (type : FunctionType)
  deriving DecidableEq, Repr

/-- Apply one `Module` method invocation, returning only the resulting
native state. -/
def Module.dispatchOp (_this : Module) : ModuleOp → NativeState → NativeState
  | .setTarget tt, s => _this.setTarget tt s
  | .setDataLayout dl, s => _this.setDataLayout dl s
  | .writeBitcodeToFile fn, s => (_this.writeBitcodeToFile fn s).2
  | .toStr, s => (_this.toString s).2
  | .addFunction name type, s => (_this.addFunction name type s).2
  | .getFunction name, s => (_this.getFunction name s).2
  | .getOrInsertFunction name type, s =>
      (_this.getOrInsertFunction name type s).2

/-- One invocation of a (non-`free`) `Builder` method, with its
arguments. -/
inductive BuilderOp where
  | getInsertBlock
  | positionAfter (bb : BasicBlock) (instr : Value)
  | positionBefore (instr : Value)
  | positionAtEnd (bb : BasicBlock)
  | build (c : BuildCall)
  deriving DecidableEq, Repr

/-- Apply one `Builder` method invocation, returning only the resulting
native state. -/
def Builder.dispatchOp (_this : Builder) :
    BuilderOp → NativeState → NativeState
  | .getInsertBlock, s => (_this.getInsertBlock s).2
  | .positionAfter bb instr, s => _this.positionAfter bb instr s
  | .positionBefore instr, s => _this.positionBefore instr s
  | .positionAtEnd bb, s => _this.positionAtEnd bb s
  | .build c, s => (_this.dispatchBuild c s).2

/-! ### Wrapper lifecycle, modelled from the spec (§5)

A wrapper created by `Module.create` / `Builder.create` can be released
through the explicit `free()` call, through the garbage-collection
finalization backstop, or both; each release event invokes `free` on the
wrapper object in its current state. -/

/-- A release event in a wrapper's lifetime. -/
inductive LifeEvent where
  | explicitFree
  | gcFinalize
  deriving DecidableEq, Repr

/-- Run a sequence of release events on a `Module` wrapper. -/
def Module.runEvents : Module → NativeState → List LifeEvent →
    Module × NativeState
  | m, s, [] => (m, s)
  | m, s, e :: rest =>
    let (m, s) := match e with
      | .explicitFree => Module.free m s
      | .gcFinalize => Module.gcFinalize m s
    Module.runEvents m s rest

/-- Run a sequence of release events on a `Builder` wrapper. -/
def Builder.runEvents : Builder → NativeState → List LifeEvent →
    Builder × NativeState
  | b, s, [] => (b, s)
  | b, s, e :: rest =>
    let (b, s) := match e with
      | .explicitFree => Builder.free b s
      | .gcFinalize => Builder.gcFinalize b s
    Builder.runEvents b s rest

/-- The number of calls to the disposal function `fn` whose argument is the
live handle `h` within a call trace. -/
def disposeCount (fn : String) (h : Nat) (cs : List NativeCall) : Nat :=
  cs.countP (fun c => c == ⟨fn, [.handle (some h)]⟩)

/-! ### The effect of an instruction-building native call -/

/-- The state produced by a successful `nativeBuildInsert` on builder `bh`
positioned at `p`. -/
def buildInsertResultState (s : NativeState) (bh : Nat) (p : BuilderPos) :
    NativeState :=
  updBuilder
    (updBlock { s with nextHandle := s.nextHandle + 1 } p.block
      (fun k => { k with instrs := insertAt p.offset s.nextHandle k.instrs }))
    bh (fun st => { st with pos := some ⟨p.block, p.offset + 1⟩ })

/-- The native call `Module.create` makes, by context branch. -/
def moduleCreateCall (name : String) (ctx : Option Context) : NativeCall :=
  match ctx with
  | some c => ⟨"LLVMModuleCreateWithNameInContext", [.str name, .obj c.ref]⟩
  | none => ⟨"LLVMModuleCreateWithName", [.str name]⟩

/-- The native call `Builder.create` makes, by context branch. -/
def builderCreateCall (ctx : Option Context) : NativeCall :=
  match ctx with
  | some c => ⟨"LLVMCreateBuilderInContext", [.obj c.ref]⟩
  | none => ⟨"LLVMCreateBuilder", []⟩

/-- `n` disposal calls carrying a null handle. -/
def nullDisposeCalls (fn : String) (n : Nat) : List NativeCall :=
  List.replicate n ⟨fn, [.handle none]⟩

/-! ### Claim C7 -/

/-- The native call `StructType.create` makes. -/
def structCreateCall (elementTypes : List Typ) (packed : Bool) : NativeCall :=
  ⟨"LLVMStructType", [.ptrArr (genPtrArray Typ.ref elementTypes),
    .int elementTypes.length, .boolean packed]⟩

/-! ### Claim C8 -/

/-- Whether an FFI argument is a wrapper object passed where a handle was
expected. -/
def FFIArg.isObj : FFIArg → Bool
  | .obj _ => true
  | _ => false

/-- Whether an FFI call passes no wrapper object among its arguments. -/
def noObjCall (c : NativeCall) : Bool :=
  c.args.all (fun a => !a.isObj)

/-- A trace in which no call passes a wrapper object as an argument. -/
def noObjTrace (cs : List NativeCall) : Prop :=
  ∀ c ∈ cs, noObjCall c = true

/-- Every operation of the module other than the two context-taking create
calls, enumerated with its arguments. -/
inductive AnyOp where
  | contextCreate
  | contextGetGlobal
  | moduleCreateNoCtx (name : String)
  | moduleFree (m : Module)
  | moduleSetTarget (m : Module) (tt : String)
  | moduleSetDataLayout (m : Module) (dl : String)
  | moduleWriteBitcodeToFile (m : Module) (fn : String)
  | moduleToString (m : Module)
  | moduleAddFunction (m : Module) (name : String) (ty : FunctionType)
  | moduleGetFunction (m : Module) (name : String)
  | moduleGetOrInsertFunction (m : Module) (name : String) (ty : FunctionType)
  | voidTypeCreate
  | intTypeCreate1
  | intTypeCreate8
  | intTypeCreate16
  | intTypeCreate32
  | intTypeCreate64
  | intTypeCreate128
  | floatTypeCreateFloat
  | floatTypeCreateDouble
  | functionTypeCreate (ret : Typ) (params : List Typ) (isVarArg : Bool)
  | structTypeCreate (ts : List Typ) (packed : Bool)
  | structNumElements (st : StructType)
  | structGetTypeAt (st : StructType) (i : Nat)
  | structTypesIter (st : StructType)
  | arrayTypeCreate (t : Typ) (count : Nat)
  | pointerTypeCreate (t : Typ) (a : Nat)
  | valueGetUndef (t : Typ)
  | valueConstNull (t : Typ)
  | valueConstPointerNull (t : Typ)
  | valueGetName (v : Value)
  | valueSetName (v : Value) (n : String)
  | funcAppendBasicBlock (f : Function) (n : String)
  | funcGetEntryBlock (f : Function)
  | funcCountParams (f : Function)
  | funcGetParam (f : Function) (i : Nat)
  | funcParamsIter (f : Function)
  | funcDeleteFromParent (f : Function)
  | constIntCreate (v : Int) (t : Typ)
  | constIntCreateTrue
  | constIntCreateFalse
  | constFloatCreate (v : Int) (t : Typ)
  | constStringCreateInContext (c : Context) (v : String) (d : Bool)
  | constStringCreate (v : String) (d : Bool)
  | constStructCreate (vals : List Value) (packed : Bool)
  | constStructCreateNamed (st : StructType) (vals : List Value)
  | constArrayCreate (t : Typ) (vals : List Value)
  | bbGetParent (bb : BasicBlock)
  | bbGetFirstInstr (bb : BasicBlock)
  | bbGetLastInstr (bb : BasicBlock)
  | builderCreateNoCtx
  | builderFree (b : Builder)
  | builderMethod (b : Builder) (op : BuilderOp)
  | tmCreate (t : Target) (triple : String) (cpu : String)
      (features : String) (ol : Int) (rm : Int) (cm : Int)
  | tmGetDefaultTargetTriple
  | tmGetTargetMachineTarget (tm : TargetMachine)
  | tmCreateDataLayout (tm : TargetMachine)
  | tdToString (td : TargetData)
  | targetGetFromTriple (triple : String)
  | targetDescription (t : Target)
  | targetName (t : Target)
  | targetToStr (t : Target)
  | initX86

/-- Run one operation, keeping the resulting native state. -/
def dispatchAnyOp : AnyOp → NativeState → NativeState
  | .contextCreate, s => (Context.create s).2
  | .contextGetGlobal, s => (Context.getGlobal s).2
  | .moduleCreateNoCtx name, s => (Module.create name none s).2
  | .moduleFree m, s => (Module.free m s).2
  | .moduleSetTarget m tt, s => m.setTarget tt s
  | .moduleSetDataLayout m dl, s => m.setDataLayout dl s
  | .moduleWriteBitcodeToFile m fn, s => (m.writeBitcodeToFile fn s).2
  | .moduleToString m, s => (m.toString s).2
  | .moduleAddFunction m name ty, s => (m.addFunction name ty s).2
  | .moduleGetFunction m name, s => (m.getFunction name s).2
  | .moduleGetOrInsertFunction m name ty, s =>
      (m.getOrInsertFunction name ty s).2
  | .voidTypeCreate, s => (VoidType.create s).2
  | .intTypeCreate1, s => (IntType.createInt1 s).2
  | .intTypeCreate8, s => (IntType.createInt8 s).2
  | .intTypeCreate16, s => (IntType.createInt16 s).2
  | .intTypeCreate32, s => (IntType.createInt32 s).2
  | .intTypeCreate64, s => (IntType.createInt64 s).2
  | .intTypeCreate128, s => (IntType.createInt128 s).2
  | .floatTypeCreateFloat, s => (FloatType.createFloat s).2
  | .floatTypeCreateDouble, s => (FloatType.createDouble s).2
  | .functionTypeCreate ret params isVarArg, s =>
      (FunctionType.create ret params isVarArg s).2
  | .structTypeCreate ts packed, s => (StructType.create ts packed s).2
  | .structNumElements st, s => (st.numStructElements s).2
  | .structGetTypeAt st i, s => (st.getTypeAt i s).2
  | .structTypesIter st, s => (st.types s).2
  | .arrayTypeCreate t count, s => (ArrayType.create t count s).2
  | .pointerTypeCreate t a, s => (PointerType.create t a s).2
  | .valueGetUndef t, s => (Value.getUndef t s).2
  | .valueConstNull t, s => (Value.constNull t s).2
  | .valueConstPointerNull t, s => (Value.constPointerNull t s).2
  | .valueGetName v, s => (v.getName s).2
  | .valueSetName v n, s => v.setName n s
  | .funcAppendBasicBlock f n, s => (f.appendBasicBlock n s).2
  | .funcGetEntryBlock f, s => (f.getEntryBlock s).2
  | .funcCountParams f, s => (f.countParams s).2
  | .funcGetParam f i, s => (f.getParam i s).2
  | .funcParamsIter f, s => (f.params s).2
  | .funcDeleteFromParent f, s => f.deleteFromParent s
  | .constIntCreate v t, s => (ConstInt.create v t s).2
  | .constIntCreateTrue, s => (ConstInt.createTrue s).2
  | .constIntCreateFalse, s => (ConstInt.createFalse s).2
  | .constFloatCreate v t, s => (ConstFloat.create v t s).2
  | .constStringCreateInContext c v d, s =>
      (ConstString.createInContext c v d s).2
  | .constStringCreate v d, s => (ConstString.create v d s).2
  | .constStructCreate vals packed, s => (ConstStruct.create vals packed s).2
  | .constStructCreateNamed st vals, s =>
      (ConstStruct.createNamed st vals s).2
  | .constArrayCreate t vals, s => (ConstArray.create t vals s).2
  | .bbGetParent bb, s => (bb.getParent s).2
  | .bbGetFirstInstr bb, s => (bb.getFirstInstr s).2
  | .bbGetLastInstr bb, s => (bb.getLastInstr s).2
  | .builderCreateNoCtx, s => (Builder.create none s).2
  | .builderFree b, s => (Builder.free b s).2
  | .builderMethod b op, s => b.dispatchOp op s
  | .tmCreate t triple cpu features ol rm cm, s =>
      (TargetMachine.create t triple cpu features ol rm cm s).2
  | .tmGetDefaultTargetTriple, s => (TargetMachine.getDefaultTargetTriple s).2
  | .tmGetTargetMachineTarget tm, s => (tm.getTargetMachineTarget s).2
  | .tmCreateDataLayout tm, s => (tm.createDataLayout s).2
  | .tdToString td, s => (td.toString s).2
  | .targetGetFromTriple triple, s => (Target.getFromTriple triple s).2
  | .targetDescription t, s => (t.description s).2
  | .targetName t, s => (t.name s).2
  | .targetToStr t, s => (t.toString s).2
  | .initX86, s => initX86Target s

theorem insertAt_length (n : Nat) (a : α) (l : List α) :
    (insertAt n a l).length = l.length + 1 := by
  induction l generalizing n with
  | nil => cases n <;> simp [insertAt]
  | cons x xs ih =>
    cases n with
    | zero => simp [insertAt]
    | succ m => simp [insertAt, ih]

/-! ### Plumbing lemmas -/

@[simp] theorem emit_modules (s : NativeState) (fn : String) (a : List FFIArg) :
    (s.emit fn a).modules = s.modules := rfl

@[simp] theorem emit_blocks (s : NativeState) (fn : String) (a : List FFIArg) :
    (s.emit fn a).blocks = s.blocks := rfl

@[simp] theorem emit_builders (s : NativeState) (fn : String) (a : List FFIArg) :
    (s.emit fn a).builders = s.builders := rfl

@[simp] theorem emit_structTypes (s : NativeState) (fn : String) (a : List FFIArg) :
    (s.emit fn a).structTypes = s.structTypes := rfl

@[simp] theorem emit_fnTypes (s : NativeState) (fn : String) (a : List FFIArg) :
    (s.emit fn a).fnTypes = s.fnTypes := rfl

@[simp] theorem emit_targets (s : NativeState) (fn : String) (a : List FFIArg) :
    (s.emit fn a).targets = s.targets := rfl

@[simp] theorem emit_nextHandle (s : NativeState) (fn : String) (a : List FFIArg) :
    (s.emit fn a).nextHandle = s.nextHandle := rfl

@[simp] theorem emit_faulted (s : NativeState) (fn : String) (a : List FFIArg) :
    (s.emit fn a).faulted = s.faulted := rfl

@[simp] theorem emit_trace (s : NativeState) (fn : String) (a : List FFIArg) :
    (s.emit fn a).trace = s.trace ++ [⟨fn, a⟩] := rfl

@[simp] theorem fault_faulted (s : NativeState) : s.fault.faulted = true := rfl

@[simp] theorem fault_trace (s : NativeState) : s.fault.trace = s.trace := rfl

@[simp] theorem findModule_emit (s : NativeState) (fn : String)
    (a : List FFIArg) (h : Nat) : findModule (s.emit fn a) h = findModule s h := rfl

@[simp] theorem findBlock_emit (s : NativeState) (fn : String)
    (a : List FFIArg) (h : Nat) : findBlock (s.emit fn a) h = findBlock s h := rfl

@[simp] theorem findBuilder_emit (s : NativeState) (fn : String)
    (a : List FFIArg) (h : Nat) : findBuilder (s.emit fn a) h = findBuilder s h := rfl

@[simp] theorem findStruct_emit (s : NativeState) (fn : String)
    (a : List FFIArg) (h : Nat) : findStruct (s.emit fn a) h = findStruct s h := rfl

@[simp] theorem findBlock_updBuilder (s : NativeState) (h q : Nat)
    (g : BuilderSt → BuilderSt) : findBlock (updBuilder s h g) q = findBlock s q := rfl

@[simp] theorem findBuilder_updBlock (s : NativeState) (h q : Nat)
    (g : BlockSt → BlockSt) : findBuilder (updBlock s h g) q = findBuilder s q := rfl

@[simp] theorem updBlock_trace (s : NativeState) (h : Nat)
    (g : BlockSt → BlockSt) : (updBlock s h g).trace = s.trace := rfl

@[simp] theorem updBuilder_trace (s : NativeState) (h : Nat)
    (g : BuilderSt → BuilderSt) : (updBuilder s h g).trace = s.trace := rfl

@[simp] theorem updModule_trace (s : NativeState) (h : Nat)
    (g : ModuleSt → ModuleSt) : (updModule s h g).trace = s.trace := rfl

@[simp] theorem updBlock_faulted (s : NativeState) (h : Nat)
    (g : BlockSt → BlockSt) : (updBlock s h g).faulted = s.faulted := rfl

@[simp] theorem updBuilder_faulted (s : NativeState) (h : Nat)
    (g : BuilderSt → BuilderSt) : (updBuilder s h g).faulted = s.faulted := rfl

@[simp] theorem updModule_faulted (s : NativeState) (h : Nat)
    (g : ModuleSt → ModuleSt) : (updModule s h g).faulted = s.faulted := rfl

/-- `find?` commutes with a handle-targeted update that preserves the key. -/
theorem find?_map_upd (key : α → Nat) (g : α → α)
    (hg : ∀ x, key (g x) = key x) (k q : Nat) (l : List α) :
    (l.map (fun x => if key x == k then g x else x)).find?
        (fun x => key x == q) =
      (l.find? (fun x => key x == q)).map
        (fun x => if key x == k then g x else x) := by
  induction l with
  | nil => rfl
  | cons x xs ih =>
    have hkey : key (if key x == k then g x else x) = key x := by
      by_cases hx : (key x == k) = true <;> simp [hx, hg]
    simp only [List.map_cons, List.find?]
    rw [hkey]
    cases hpa : (key x == q) with
    | false => simpa using ih
    | true => simp

theorem findModule_updModule (s : NativeState) (h q : Nat)
    (g : ModuleSt → ModuleSt) (hg : ∀ m, (g m).handle = m.handle) :
    findModule (updModule s h g) q =
      (findModule s q).map (fun m => if m.handle == h then g m else m) := by
  simpa only [findModule, updModule] using
    find?_map_upd (fun m : ModuleSt => m.handle) g hg h q s.modules

theorem findBlock_updBlock (s : NativeState) (h q : Nat)
    (g : BlockSt → BlockSt) (hg : ∀ b, (g b).handle = b.handle) :
    findBlock (updBlock s h g) q =
      (findBlock s q).map (fun b => if b.handle == h then g b else b) := by
  simpa only [findBlock, updBlock] using
    find?_map_upd (fun b : BlockSt => b.handle) g hg h q s.blocks

theorem findBuilder_updBuilder (s : NativeState) (h q : Nat)
    (g : BuilderSt → BuilderSt) (hg : ∀ b, (g b).handle = b.handle) :
    findBuilder (updBuilder s h g) q =
      (findBuilder s q).map (fun b => if b.handle == h then g b else b) := by
  simpa only [findBuilder, updBuilder] using
    find?_map_upd (fun b : BuilderSt => b.handle) g hg h q s.builders

/-! ### Characterization of `genPtrArray` -/

theorem genPtrArrayGo_length (rf : α → Option Nat) (array : List α)
    (rest : List α) (ptrArray : List (Option Nat)) (i : Nat) :
    (genPtrArrayGo rf array ptrArray i rest).length = ptrArray.length := by
  induction rest generalizing ptrArray i with
  | nil => rfl
  | cons y ys ih => simp [genPtrArrayGo, ih]

theorem genPtrArrayGo_get_low (rf : α → Option Nat) (array : List α)
    (rest : List α) : ∀ (ptrArray : List (Option Nat)) (i k : Nat), k < i →
    (genPtrArrayGo rf array ptrArray i rest).get? k = ptrArray.get? k := by
  induction rest with
  | nil => intro p i k _; rfl
  | cons y ys ih =>
    intro p i k hk
    rw [genPtrArrayGo, ih _ _ _ (Nat.lt_succ_of_lt hk)]
    exact List.get?_set_ne _ _ (by omega)

theorem genPtrArrayGo_get_hit (rf : α → Option Nat) (array : List α)
    (rest : List α) : ∀ (ptrArray : List (Option Nat)) (i k : Nat),
    i ≤ k → k < i + rest.length → k < ptrArray.length →
    (genPtrArrayGo rf array ptrArray i rest).get? k =
      some (((array.get? k).map rf).getD none) := by
  induction rest with
  | nil =>
    intro p i k h1 h2 _
    simp only [List.length_nil, Nat.add_zero] at h2
    omega
  | cons y ys ih =>
    intro p i k h1 h2 h3
    rw [genPtrArrayGo]
    rcases Nat.eq_or_lt_of_le h1 with he | hlt
    · subst he
      rw [genPtrArrayGo_get_low rf array ys _ _ _ (Nat.lt_succ_self i)]
      exact List.get?_set_eq_of_lt _ h3
    · refine ih _ _ _ hlt ?_ (by simpa using h3)
      simp only [List.length_cons] at h2
      omega

/-- The pointer array built by `genPtrArray` is exactly the element-wise
image of the wrappers' `ref` handles, in order. -/
theorem genPtrArray_eq_map (rf : α → Option Nat) (array : List α) :
    genPtrArray rf array = array.map rf := by
  refine List.ext_get?_iff.mpr fun k => ?_
  by_cases hk : k < array.length
  · rw [genPtrArray,
      genPtrArrayGo_get_hit rf array array _ 0 k (Nat.zero_le k)
        (by simpa using hk) (by simpa using hk)]
    rw [List.get?_map, List.get?_eq_get hk]
    rfl
  · have h1 : (genPtrArray rf array).get? k = none := by
      apply List.get?_eq_none.2
      rw [genPtrArray, genPtrArrayGo_length]
      simpa using Nat.le_of_not_lt hk
    have h2 : (array.map rf).get? k = none := by
      apply List.get?_eq_none.2
      simpa using Nat.le_of_not_lt hk
    rw [h1, h2]

theorem nativeBuildInsert_eq (s : NativeState) (bh : Nat) (bst : BuilderSt)
    (p : BuilderPos) (bl : BlockSt) (h2 : findBuilder s bh = some bst)
    (h3 : bst.pos = some p) (h4 : findBlock s p.block = some bl) :
    nativeBuildInsert s (some bh) =
      (some s.nextHandle, buildInsertResultState s bh p) := by
  simp only [nativeBuildInsert, h2, h3, h4]
  rfl

theorem findBlock_buildInsertResultState (s : NativeState) (bh : Nat)
    (p : BuilderPos) (bl : BlockSt) (h4 : findBlock s p.block = some bl) :
    findBlock (buildInsertResultState s bh p) p.block =
      some { bl with instrs := insertAt p.offset s.nextHandle bl.instrs } := by
  have step := findBlock_updBlock { s with nextHandle := s.nextHandle + 1 }
    p.block p.block
    (fun k => { k with instrs := insertAt p.offset s.nextHandle k.instrs })
    (fun _ => rfl)
  rw [buildInsertResultState, findBlock_updBuilder, step]
  have h4' : findBlock { s with nextHandle := s.nextHandle + 1 } p.block
      = some bl := h4
  rw [h4']
  have hbl : bl.handle = p.block := by
    have := List.find?_some (p := fun b : BlockSt => b.handle == p.block) (by
      simpa [findBlock] using h4)
    simpa using this
  simp [hbl]

theorem findBuilder_buildInsertResultState (s : NativeState) (bh : Nat)
    (p : BuilderPos) (bst : BuilderSt) (h2 : findBuilder s bh = some bst) :
    findBuilder (buildInsertResultState s bh p) bh =
      some { bst with pos := some ⟨p.block, p.offset + 1⟩ } := by
  have step := findBuilder_updBuilder
    (updBlock { s with nextHandle := s.nextHandle + 1 } p.block
      (fun k => { k with instrs := insertAt p.offset s.nextHandle k.instrs }))
    bh bh (fun st => { st with pos := some ⟨p.block, p.offset + 1⟩ })
    (fun _ => rfl)
  rw [buildInsertResultState, step]
  have h2' : findBuilder
      (updBlock { s with nextHandle := s.nextHandle + 1 } p.block
        (fun k => { k with instrs := insertAt p.offset s.nextHandle k.instrs }))
      bh = some bst := h2
  rw [h2']
  have hb : bst.handle = bh := by
    have := List.find?_some (p := fun b : BuilderSt => b.handle == bh) (by
      simpa [findBuilder] using h2)
    simpa using this
  simp [hb]

/-- The common shape of every `build*` method: a trace emission followed by
`nativeBuildInsert` on the builder handle.  On a positioned builder the
insert returns the fresh instruction handle, grows the current block by
exactly one instruction at the current offset, and advances the builder's
position by one. -/
theorem buildMethod_spec (s : NativeState) (fn : String) (a : List FFIArg)
    (bh : Nat) (bst : BuilderSt) (p : BuilderPos) (bl : BlockSt)
    (h2 : findBuilder s bh = some bst) (h3 : bst.pos = some p)
    (h4 : findBlock s p.block = some bl) :
    (nativeBuildInsert (s.emit fn a) (some bh)).1 = some s.nextHandle ∧
    findBlock (nativeBuildInsert (s.emit fn a) (some bh)).2 p.block =
      some { bl with instrs := insertAt p.offset s.nextHandle bl.instrs } ∧
    (findBlock (nativeBuildInsert (s.emit fn a) (some bh)).2 p.block).map
        (fun k => k.instrs.length) = some (bl.instrs.length + 1) ∧
    findBuilder (nativeBuildInsert (s.emit fn a) (some bh)).2 bh =
      some { bst with pos := some ⟨p.block, p.offset + 1⟩ } := by
  have he := nativeBuildInsert_eq (s.emit fn a) bh bst p bl h2 h3 h4
  rw [he]
  have hb := findBlock_buildInsertResultState (s.emit fn a) bh p bl h4
  have hu := findBuilder_buildInsertResultState (s.emit fn a) bh p bst h2
  exact ⟨rfl, hb, by rw [hb]; simp [insertAt_length], hu⟩

/-! ### Claim C1 -/

/-- C1 counterexample: the claim states that every `build*` operation,
`buildRet` included, returns the new instruction wrapped as a `Value`
object.  At this concrete positioned builder, `buildRet` appends its
instruction but returns the raw native handle, not a `Value` wrapper, so
the claim as stated is false. -/
theorem corrected_C1_counterexample :
    (((Builder.mk (some 1)).buildRet (Value.mk (some 3))
        { emptyState with
          blocks := [⟨2, none, []⟩]
          builders := [⟨1, some ⟨2, 0⟩⟩] }).1).isWrapped = false ∧
    findBlock ((Builder.mk (some 1)).buildRet (Value.mk (some 3))
        { emptyState with
          blocks := [⟨2, none, []⟩]
          builders := [⟨1, some ⟨2, 0⟩⟩] }).2 2 = some ⟨2, none, [100]⟩ := by
  decide

/-- C1 (amended): when the builder is positioned at a block, every `build*`
operation inserts exactly one new instruction at the current position and
advances the position to just after that instruction; every operation
except `buildRet` returns the instruction wrapped as a `Value` object,
while `buildRet` returns the instruction's raw native handle unwrapped. -/
theorem corrected_C1_amended (c : BuildCall) (b : Builder) (s : NativeState)
    (bh : Nat) (bst : BuilderSt) (p : BuilderPos) (bl : BlockSt)
    (h1 : b.ref = some bh) (h2 : findBuilder s bh = some bst)
    (h3 : bst.pos = some p) (h4 : findBlock s p.block = some bl) :
    (b.dispatchBuild c s).1 =
      (if c.isRet then JSValue.raw (some s.nextHandle)
       else JSValue.wrapped ⟨some s.nextHandle⟩) ∧
    findBlock (b.dispatchBuild c s).2 p.block =
      some { bl with instrs := insertAt p.offset s.nextHandle bl.instrs } ∧
    (findBlock (b.dispatchBuild c s).2 p.block).map (fun k => k.instrs.length) =
      some (bl.instrs.length + 1) ∧
    findBuilder (b.dispatchBuild c s).2 bh =
      some { bst with pos := some ⟨p.block, p.offset + 1⟩ } := by
  cases c <;>
  · simp only [Builder.dispatchBuild, Builder.buildCall, Builder.buildAlloca,
      Builder.buildLoad, Builder.buildStore, Builder.buildStructGEP,
      Builder.buildSIToFP, Builder.buildFPToSI, Builder.buildBitCast,
      Builder.buildInsertValue, Builder.buildAdd, Builder.buildFAdd,
      Builder.buildSub, Builder.buildFSub, Builder.buildMul,
      Builder.buildFMul, Builder.buildNeg, Builder.buildFNeg,
      Builder.buildRet, h1]
    obtain ⟨e1, e2, e3, e4⟩ := buildMethod_spec s _ _ bh bst p bl h2 h3 h4
    exact ⟨by rw [e1]; rfl, e2, e3, e4⟩

/-- C1 witness: the amended theorem applied to `buildAdd` on a concrete
builder positioned at offset 0 of an empty block. -/
theorem corrected_C1_witness :
    ((Builder.mk (some 1)).dispatchBuild
        (BuildCall.add ⟨some 3⟩ ⟨some 4⟩ "x")
        { emptyState with
          blocks := [⟨2, none, []⟩]
          builders := [⟨1, some ⟨2, 0⟩⟩] }).1 =
      JSValue.wrapped ⟨some 100⟩ ∧
    findBlock ((Builder.mk (some 1)).dispatchBuild
        (BuildCall.add ⟨some 3⟩ ⟨some 4⟩ "x")
        { emptyState with
          blocks := [⟨2, none, []⟩]
          builders := [⟨1, some ⟨2, 0⟩⟩] }).2 2 = some ⟨2, none, [100]⟩ ∧
    findBuilder ((Builder.mk (some 1)).dispatchBuild
        (BuildCall.add ⟨some 3⟩ ⟨some 4⟩ "x")
        { emptyState with
          blocks := [⟨2, none, []⟩]
          builders := [⟨1, some ⟨2, 0⟩⟩] }).2 1 = some ⟨1, some ⟨2, 1⟩⟩ := by
  have h := corrected_C1_amended (BuildCall.add ⟨some 3⟩ ⟨some 4⟩ "x")
    ⟨some 1⟩
    { emptyState with
      blocks := [⟨2, none, []⟩]
      builders := [⟨1, some ⟨2, 0⟩⟩] }
    1 ⟨1, some ⟨2, 0⟩⟩ ⟨2, 0⟩ ⟨2, none, []⟩ rfl (by decide) rfl (by decide)
  obtain ⟨ha, hb, -, hd⟩ := h
  refine ⟨?_, ?_, ?_⟩
  · simpa [emptyState, BuildCall.isRet] using ha
  · simpa [emptyState, insertAt] using hb
  · simpa using hd

/-! ### Claim C2 -/

/-- C2: `Target.getFromTriple(triple)` either raises the failure
`"error retrieving target"` — exactly when no statically-initialized
backend resolves the triple — or returns a `Target` wrapper holding the
native handle the triple resolves to; it never returns a usable wrapper on
failure. -/
theorem claim_C2_getFromTriple (triple : String) (s : NativeState) :
    match (Target.getFromTriple triple s).1 with
    | .error e => e = "error retrieving target" ∧
        s.targets.find? (fun p => p.1 == triple) = none
    | .ok t => ∃ p ∈ s.targets, p.1 = triple ∧ t.ref = some p.2 := by
  rw [Target.getFromTriple, nativeGetTargetFromTriple]
  simp only [emit_targets]
  cases hf : s.targets.find? (fun p => p.1 == triple) with
  | none => exact ⟨rfl, rfl⟩
  | some p =>
    refine ⟨p, List.mem_of_find?_eq_some hf, ?_, rfl⟩
    have := List.find?_some hf
    simpa using this

/-! ### Claim C3 -/

@[simp] theorem nativeDisposeModule_trace (s : NativeState) (m : Option Nat) :
    (nativeDisposeModule s m).trace = s.trace := by
  cases m <;> rfl

@[simp] theorem nativeDisposeBuilder_trace (s : NativeState) (b : Option Nat) :
    (nativeDisposeBuilder s b).trace = s.trace := by
  cases b <;> rfl

theorem moduleCreate_eq (name : String) (ctx : Option Context)
    (s : NativeState) :
    Module.create name ctx s = (⟨some s.nextHandle⟩,
      { s with nextHandle := s.nextHandle + 1
               trace := s.trace ++ [moduleCreateCall name ctx]
               modules := s.modules ++ [⟨s.nextHandle, [], "", ""⟩] }) := by
  cases ctx <;> rfl

theorem builderCreate_eq (ctx : Option Context) (s : NativeState) :
    Builder.create ctx s = (⟨some s.nextHandle⟩,
      { s with nextHandle := s.nextHandle + 1
               trace := s.trace ++ [builderCreateCall ctx]
               builders := s.builders ++ [⟨s.nextHandle, none⟩] }) := by
  cases ctx <;> rfl

/-- After the wrapper's handle is nulled, every further release event
passes the null handle to the disposal function: only trace entries with a
null-handle argument are appended. -/
theorem moduleRunEvents_null (s : NativeState) (events : List LifeEvent) :
    Module.runEvents ⟨none⟩ s events = (⟨none⟩,
      { s with trace := s.trace ++ nullDisposeCalls "LLVMDisposeModule" events.length }) := by
  induction events generalizing s with
  | nil => simp [Module.runEvents, nullDisposeCalls]
  | cons e rest ih =>
    cases e with
    | explicitFree =>
      have hstep : Module.runEvents (⟨none⟩ : Module) s
            (LifeEvent.explicitFree :: rest) =
          Module.runEvents ⟨none⟩
            (s.emit "LLVMDisposeModule" [.handle none]) rest := rfl
      rw [hstep, ih]
      simp [NativeState.emit, nullDisposeCalls, List.replicate_succ]
    | gcFinalize =>
      have hstep : Module.runEvents (⟨none⟩ : Module) s
            (LifeEvent.gcFinalize :: rest) =
          Module.runEvents ⟨none⟩
            (s.emit "LLVMDisposeModule" [.handle none]) rest := rfl
      rw [hstep, ih]
      simp [NativeState.emit, nullDisposeCalls, List.replicate_succ]

/-- `Builder` analogue of `moduleRunEvents_null`. -/
theorem builderRunEvents_null (s : NativeState) (events : List LifeEvent) :
    Builder.runEvents ⟨none⟩ s events = (⟨none⟩,
      { s with trace := s.trace ++ nullDisposeCalls "LLVMDisposeBuilder" events.length }) := by
  induction events generalizing s with
  | nil => simp [Builder.runEvents, nullDisposeCalls]
  | cons e rest ih =>
    cases e with
    | explicitFree =>
      have hstep : Builder.runEvents (⟨none⟩ : Builder) s
            (LifeEvent.explicitFree :: rest) =
          Builder.runEvents ⟨none⟩
            (s.emit "LLVMDisposeBuilder" [.handle none]) rest := rfl
      rw [hstep, ih]
      simp [NativeState.emit, nullDisposeCalls, List.replicate_succ]
    | gcFinalize =>
      have hstep : Builder.runEvents (⟨none⟩ : Builder) s
            (LifeEvent.gcFinalize :: rest) =
          Builder.runEvents ⟨none⟩
            (s.emit "LLVMDisposeBuilder" [.handle none]) rest := rfl
      rw [hstep, ih]
      simp [NativeState.emit, nullDisposeCalls, List.replicate_succ]

/-- Running a nonempty sequence of release events on a live wrapper yields
one disposal call carrying the live handle followed by null-handle disposal
calls only. -/
theorem moduleRunEvents_live_trace (h : Nat) (s : NativeState)
    (e : LifeEvent) (rest : List LifeEvent) :
    (Module.runEvents ⟨some h⟩ s (e :: rest)).2.trace =
      s.trace ++ ⟨"LLVMDisposeModule", [.handle (some h)]⟩ ::
        nullDisposeCalls "LLVMDisposeModule" rest.length := by
  cases e with
  | explicitFree =>
    have hstep : Module.runEvents (⟨some h⟩ : Module) s
          (LifeEvent.explicitFree :: rest) =
        Module.runEvents ⟨none⟩
          (nativeDisposeModule
            (s.emit "LLVMDisposeModule" [.handle (some h)]) (some h)) rest := rfl
    rw [hstep, moduleRunEvents_null]
    simp [nativeDisposeModule, NativeState.emit]
  | gcFinalize =>
    have hstep : Module.runEvents (⟨some h⟩ : Module) s
          (LifeEvent.gcFinalize :: rest) =
        Module.runEvents ⟨none⟩
          (nativeDisposeModule
            (s.emit "LLVMDisposeModule" [.handle (some h)]) (some h)) rest := rfl
    rw [hstep, moduleRunEvents_null]
    simp [nativeDisposeModule, NativeState.emit]

/-- `Builder` analogue of `moduleRunEvents_live_trace`. -/
theorem builderRunEvents_live_trace (h : Nat) (s : NativeState)
    (e : LifeEvent) (rest : List LifeEvent) :
    (Builder.runEvents ⟨some h⟩ s (e :: rest)).2.trace =
      s.trace ++ ⟨"LLVMDisposeBuilder", [.handle (some h)]⟩ ::
        nullDisposeCalls "LLVMDisposeBuilder" rest.length := by
  cases e with
  | explicitFree =>
    have hstep : Builder.runEvents (⟨some h⟩ : Builder) s
          (LifeEvent.explicitFree :: rest) =
        Builder.runEvents ⟨none⟩
          (nativeDisposeBuilder
            (s.emit "LLVMDisposeBuilder" [.handle (some h)]) (some h)) rest := rfl
    rw [hstep, builderRunEvents_null]
    simp [nativeDisposeBuilder, NativeState.emit]
  | gcFinalize =>
    have hstep : Builder.runEvents (⟨some h⟩ : Builder) s
          (LifeEvent.gcFinalize :: rest) =
        Builder.runEvents ⟨none⟩
          (nativeDisposeBuilder
            (s.emit "LLVMDisposeBuilder" [.handle (some h)]) (some h)) rest := rfl
    rw [hstep, builderRunEvents_null]
    simp [nativeDisposeBuilder, NativeState.emit]

theorem countP_replicate_zero (p : NativeCall → Bool) (n : Nat)
    (c : NativeCall) (hp : p c = false) :
    (List.replicate n c).countP p = 0 := by
  induction n with
  | zero => rfl
  | succ k ih => simp [List.replicate_succ, List.countP_cons, hp, ih]

/-- C3: for every `Module` and `Builder` obtained from `create`, and every
nonempty sequence of release events (explicit `free`, the GC finalization
backstop, or any combination), the native disposal function receives the
wrapper's live native handle exactly once. -/
theorem claim_C3_dispose_once (name : String) (ctx : Option Context)
    (s : NativeState) (events : List LifeEvent) (hne : events ≠ []) :
    disposeCount "LLVMDisposeModule" s.nextHandle
      (newCalls s
        (Module.runEvents (Module.create name ctx s).1
          (Module.create name ctx s).2 events).2) = 1 ∧
    disposeCount "LLVMDisposeBuilder" s.nextHandle
      (newCalls s
        (Builder.runEvents (Builder.create ctx s).1
          (Builder.create ctx s).2 events).2) = 1 := by
  obtain ⟨e, rest, rfl⟩ : ∃ e rest, events = e :: rest := by
    cases events with
    | nil => exact absurd rfl hne
    | cons e rest => exact ⟨e, rest, rfl⟩
  constructor
  · rw [moduleCreate_eq]
    rw [newCalls, moduleRunEvents_live_trace]
    simp only [List.append_assoc, List.cons_append, List.nil_append]
    rw [List.drop_left]
    rw [disposeCount, nullDisposeCalls, List.countP_cons, List.countP_cons]
    rw [countP_replicate_zero _ _ _ (by simp)]
    have hcreate : (moduleCreateCall name ctx ==
        (⟨"LLVMDisposeModule", [.handle (some s.nextHandle)]⟩ : NativeCall))
        = false := by
      cases ctx <;> simp [moduleCreateCall]
    simp [hcreate]
  · rw [builderCreate_eq]
    rw [newCalls, builderRunEvents_live_trace]
    simp only [List.append_assoc, List.cons_append, List.nil_append]
    rw [List.drop_left]
    rw [disposeCount, nullDisposeCalls, List.countP_cons, List.countP_cons]
    rw [countP_replicate_zero _ _ _ (by simp)]
    have hcreate : (builderCreateCall ctx ==
        (⟨"LLVMDisposeBuilder", [.handle (some s.nextHandle)]⟩ : NativeCall))
        = false := by
      cases ctx <;> simp [builderCreateCall]
    simp [hcreate]

/-- C3 witness: a module and a builder created in the empty state and
released by an explicit `free` followed by the finalization backstop each
see exactly one disposal of their live handle. -/
theorem claim_C3_witness :
    disposeCount "LLVMDisposeModule" 100
      (newCalls emptyState
        (Module.runEvents (Module.create "m" none emptyState).1
          (Module.create "m" none emptyState).2
          [LifeEvent.explicitFree, LifeEvent.gcFinalize]).2) = 1 ∧
    disposeCount "LLVMDisposeBuilder" 100
      (newCalls emptyState
        (Builder.runEvents (Builder.create none emptyState).1
          (Builder.create none emptyState).2
          [LifeEvent.explicitFree, LifeEvent.gcFinalize]).2) = 1 :=
  claim_C3_dispose_once "m" none emptyState
    [LifeEvent.explicitFree, LifeEvent.gcFinalize] (by decide)

/-! ### Claims C4 and C5 -/

@[simp] theorem findModule_bump (s : NativeState) (n : Nat) (q : Nat) :
    findModule { s with nextHandle := n } q = findModule s q := rfl

@[simp] theorem findBlock_bump (s : NativeState) (n : Nat) (q : Nat) :
    findBlock { s with nextHandle := n } q = findBlock s q := rfl

@[simp] theorem findBuilder_bump (s : NativeState) (n : Nat) (q : Nat) :
    findBuilder { s with nextHandle := n } q = findBuilder s q := rfl

@[simp] theorem findStruct_bump (s : NativeState) (n : Nat) (q : Nat) :
    findStruct { s with nextHandle := n } q = findStruct s q := rfl

@[simp] theorem findModule_mk (n : Nat) (f : Bool) (tr : List NativeCall)
    (mo : List ModuleSt) (bl : List BlockSt) (bu : List BuilderSt)
    (st : List StructSt) (ft : List FnTypeSt) (tg : List (String × Nat))
    (tm : List (Nat × Option Nat)) (nm : List (Nat × String)) (q : Nat) :
    findModule ⟨n, f, tr, mo, bl, bu, st, ft, tg, tm, nm⟩ q =
      mo.find? (fun m => m.handle == q) := rfl

@[simp] theorem findBlock_mk (n : Nat) (f : Bool) (tr : List NativeCall)
    (mo : List ModuleSt) (bl : List BlockSt) (bu : List BuilderSt)
    (st : List StructSt) (ft : List FnTypeSt) (tg : List (String × Nat))
    (tm : List (Nat × Option Nat)) (nm : List (Nat × String)) (q : Nat) :
    findBlock ⟨n, f, tr, mo, bl, bu, st, ft, tg, tm, nm⟩ q =
      bl.find? (fun b => b.handle == q) := rfl

@[simp] theorem findBuilder_mk (n : Nat) (f : Bool) (tr : List NativeCall)
    (mo : List ModuleSt) (bl : List BlockSt) (bu : List BuilderSt)
    (st : List StructSt) (ft : List FnTypeSt) (tg : List (String × Nat))
    (tm : List (Nat × Option Nat)) (nm : List (Nat × String)) (q : Nat) :
    findBuilder ⟨n, f, tr, mo, bl, bu, st, ft, tg, tm, nm⟩ q =
      bu.find? (fun b => b.handle == q) := rfl

@[simp] theorem findStruct_mk (n : Nat) (f : Bool) (tr : List NativeCall)
    (mo : List ModuleSt) (bl : List BlockSt) (bu : List BuilderSt)
    (st : List StructSt) (ft : List FnTypeSt) (tg : List (String × Nat))
    (tm : List (Nat × Option Nat)) (nm : List (Nat × String)) (q : Nat) :
    findStruct ⟨n, f, tr, mo, bl, bu, st, ft, tg, tm, nm⟩ q =
      st.find? (fun x => x.handle == q) := rfl

/-- `Module.getFunction` on a live module: the wrapper around the first
function with the requested name (or a null handle), plus one trace
entry. -/
theorem Module.getFunction_eq (m : Module) (mh : Nat) (md : ModuleSt)
    (name : String) (s : NativeState) (h1 : m.ref = some mh)
    (h2 : findModule s mh = some md) :
    m.getFunction name s =
      (⟨(md.functions.find? (fun f => f.name == name)).map (·.handle)⟩,
       s.emit "LLVMGetNamedFunction" [.handle m.ref, .str name]) := by
  simp only [Module.getFunction, nativeGetNamedFunction, h1, findModule_emit,
    h2]

/-- `Module.addFunction` on a live module returns a wrapper around a fresh
handle and appends exactly one declaration with the requested name and type
to that module's function list. -/
theorem Module.addFunction_spec (m : Module) (mh : Nat) (md : ModuleSt)
    (name : String) (ty : FunctionType) (s : NativeState)
    (h1 : m.ref = some mh) (h2 : findModule s mh = some md) :
    (m.addFunction name ty s).1 = ⟨some s.nextHandle⟩ ∧
    ∃ ps, findModule (m.addFunction name ty s).2 mh =
      some { md with functions :=
        md.functions ++ [⟨name, s.nextHandle, ty.ref, ps⟩] } := by
  have hmd : md.handle = mh := by
    have := List.find?_some (p := fun x : ModuleSt => x.handle == mh) (by
      simpa [findModule] using h2)
    simpa using this
  simp only [Module.addFunction, nativeAddFunction, h1, findModule_emit, h2,
    emit_nextHandle]
  refine ⟨trivial, List.range' (s.nextHandle + 1)
    (match ty.ref with
      | none => []
      | some th =>
        match findFnType (s.emit "LLVMAddFunction"
            [.handle (some mh), .str name, .handle ty.ref]) th with
        | none => []
        | some ft => ft.params).length, ?_⟩
  rw [findModule_updModule _ _ _ _ ?hg]
  · rw [findModule_mk, emit_modules]
    have h2' : s.modules.find? (fun m => m.handle == mh) = some md := h2
    rw [h2']
    simp [hmd]
  · exact fun _ => rfl

/-- `Module.getOrInsertFunction` when a function with the name already
exists: it is returned as-is (no type check, no insertion) and the only
state change is the lookup trace entry. -/
theorem Module.getOrInsertFunction_found (m : Module) (mh : Nat)
    (md : ModuleSt) (fd : FuncDecl) (name : String) (ty : FunctionType)
    (s : NativeState) (h1 : m.ref = some mh)
    (h2 : findModule s mh = some md)
    (hf : md.functions.find? (fun f => f.name == name) = some fd) :
    m.getOrInsertFunction name ty s = (⟨some fd.handle⟩,
      s.emit "LLVMGetNamedFunction" [.handle m.ref, .str name]) := by
  simp only [Module.getOrInsertFunction,
    Module.getFunction_eq m mh md name s h1 h2, hf]
  simp

/-- `Module.getOrInsertFunction` when no function with the name exists: a
fresh declaration is inserted and returned. -/
theorem Module.getOrInsertFunction_absent (m : Module) (mh : Nat)
    (md : ModuleSt) (name : String) (ty : FunctionType) (s : NativeState)
    (h1 : m.ref = some mh) (h2 : findModule s mh = some md)
    (hf : md.functions.find? (fun f => f.name == name) = none) :
    (m.getOrInsertFunction name ty s).1 = ⟨some s.nextHandle⟩ ∧
    ∃ ps, findModule (m.getOrInsertFunction name ty s).2 mh =
      some { md with functions :=
        md.functions ++ [⟨name, s.nextHandle, ty.ref, ps⟩] } := by
  have hstep : m.getOrInsertFunction name ty s =
      m.addFunction name ty
        (s.emit "LLVMGetNamedFunction" [.handle m.ref, .str name]) := by
    simp only [Module.getOrInsertFunction,
      Module.getFunction_eq m mh md name s h1 h2, hf]
    simp
  rw [hstep]
  exact Module.addFunction_spec m mh md name ty _ h1 h2

/-- C4: calling `getOrInsertFunction` twice with the same name and type on
a live module yields wrappers around the same (non-null) native function
handle, and the second call leaves the module's function list exactly as
the first call left it — no duplicate declaration is added. -/
theorem claim_C4_getOrInsertFunction_idempotent (m : Module) (name : String)
    (ty : FunctionType) (s : NativeState) (mh : Nat) (md : ModuleSt)
    (h1 : m.ref = some mh) (h2 : findModule s mh = some md) :
    ((m.getOrInsertFunction name ty
        (m.getOrInsertFunction name ty s).2).1).ref =
      ((m.getOrInsertFunction name ty s).1).ref ∧
    ((m.getOrInsertFunction name ty s).1).ref ≠ none ∧
    (findModule (m.getOrInsertFunction name ty
        (m.getOrInsertFunction name ty s).2).2 mh).map (·.functions) =
      (findModule (m.getOrInsertFunction name ty s).2 mh).map (·.functions) := by
  cases hf : md.functions.find? (fun f => f.name == name) with
  | some fd =>
    have r1 := Module.getOrInsertFunction_found m mh md fd name ty s h1 h2 hf
    have h2' : findModule (m.getOrInsertFunction name ty s).2 mh = some md := by
      rw [r1]; exact h2
    have r2 := Module.getOrInsertFunction_found m mh md fd name ty
      (m.getOrInsertFunction name ty s).2 h1 h2' hf
    refine ⟨?_, ?_, ?_⟩
    · rw [r2, r1]
    · rw [r1]; simp
    · rw [r2, findModule_emit]
  | none =>
    obtain ⟨hr1, ps, hm1⟩ :=
      Module.getOrInsertFunction_absent m mh md name ty s h1 h2 hf
    have hf2 : ({ md with functions :=
        md.functions ++ [⟨name, s.nextHandle, ty.ref, ps⟩] } : ModuleSt).functions.find?
          (fun f => f.name == name) = some ⟨name, s.nextHandle, ty.ref, ps⟩ := by
      simp only [List.find?_append, hf]
      simp [List.find?]
    have r2 := Module.getOrInsertFunction_found m mh
      { md with functions := md.functions ++ [⟨name, s.nextHandle, ty.ref, ps⟩] }
      ⟨name, s.nextHandle, ty.ref, ps⟩ name ty
      (m.getOrInsertFunction name ty s).2 h1 hm1 hf2
    refine ⟨?_, ?_, ?_⟩
    · rw [r2, hr1]
    · rw [hr1]; simp
    · rw [r2, findModule_emit]

/-- C4 witness: two `getOrInsertFunction "f"` calls on a concrete fresh
module agree on the returned handle and on the final function list. -/
theorem claim_C4_witness :
    (((Module.mk (some 50)).getOrInsertFunction "f" ⟨some 7⟩
        ((Module.mk (some 50)).getOrInsertFunction "f" ⟨some 7⟩
          { emptyState with modules := [⟨50, [], "", ""⟩] }).2).1).ref =
      ((((Module.mk (some 50)).getOrInsertFunction "f" ⟨some 7⟩
        { emptyState with modules := [⟨50, [], "", ""⟩] }).1)).ref ∧
    ((((Module.mk (some 50)).getOrInsertFunction "f" ⟨some 7⟩
        { emptyState with modules := [⟨50, [], "", ""⟩] }).1)).ref ≠ none ∧
    (findModule (((Module.mk (some 50)).getOrInsertFunction "f" ⟨some 7⟩
        ((Module.mk (some 50)).getOrInsertFunction "f" ⟨some 7⟩
          { emptyState with modules := [⟨50, [], "", ""⟩] }).2).2) 50).map
        (·.functions) =
      (findModule (((Module.mk (some 50)).getOrInsertFunction "f" ⟨some 7⟩
        { emptyState with modules := [⟨50, [], "", ""⟩] }).2) 50).map
        (·.functions) :=
  claim_C4_getOrInsertFunction_idempotent (Module.mk (some 50)) "f" ⟨some 7⟩
    { emptyState with modules := [⟨50, [], "", ""⟩] } 50 ⟨50, [], "", ""⟩
    rfl (by decide)

/-- C5: `getOrInsertFunction` checks only the name: when a function named
`name` exists, it is returned unconditionally — for every requested type,
including one differing from the existing function's recorded type — and
the module's function list is left unchanged (no comparison, no insertion,
no cast). -/
theorem claim_C5_getOrInsertFunction_no_type_check (m : Module)
    (name : String) (ty : FunctionType) (s : NativeState) (mh : Nat)
    (md : ModuleSt) (fd : FuncDecl) (h1 : m.ref = some mh)
    (h2 : findModule s mh = some md)
    (hf : md.functions.find? (fun f => f.name == name) = some fd) :
    ((m.getOrInsertFunction name ty s).1).ref = some fd.handle ∧
    (findModule (m.getOrInsertFunction name ty s).2 mh).map (·.functions) =
      some md.functions := by
  have r1 := Module.getOrInsertFunction_found m mh md fd name ty s h1 h2 hf
  refine ⟨by rw [r1], ?_⟩
  rw [r1]
  have h2e : findModule (s.emit "LLVMGetNamedFunction"
      [.handle m.ref, .str name]) mh = some md := by
    rw [findModule_emit]; exact h2
  rw [h2e]
  simp

/-- C5 witness: the existing function `"f"` has recorded type handle 7;
requesting type handle 8 still returns it, with no change to the module's
function list. -/
theorem claim_C5_witness :
    (((Module.mk (some 50)).getOrInsertFunction "f" ⟨some 8⟩
        { emptyState with
          modules := [⟨50, [⟨"f", 60, some 7, []⟩], "", ""⟩] }).1).ref =
      some 60 ∧
    (findModule (((Module.mk (some 50)).getOrInsertFunction "f" ⟨some 8⟩
        { emptyState with
          modules := [⟨50, [⟨"f", 60, some 7, []⟩], "", ""⟩] }).2) 50).map
        (·.functions) = some [⟨"f", 60, some 7, []⟩] :=
  claim_C5_getOrInsertFunction_no_type_check (Module.mk (some 50)) "f"
    ⟨some 8⟩
    { emptyState with modules := [⟨50, [⟨"f", 60, some 7, []⟩], "", ""⟩] }
    50 ⟨50, [⟨"f", 60, some 7, []⟩], "", ""⟩ ⟨"f", 60, some 7, []⟩
    rfl (by decide) (by decide)

/-! ### Claim C6 -/

/-- C6 counterexample: the claim demands that after `free()` every
subsequent operation on the disposed wrapper fails fast with a detectable
error.  But a second `free()` on this concrete freed module passes the
nulled handle to the (infallible) disposal function and completes silently:
no fault is raised, so the claim as stated is false. -/
theorem corrected_C6_counterexample :
    (Module.free (Module.mk (some 50))
      { emptyState with modules := [⟨50, [], "", ""⟩] }).1.ref = none ∧
    ((Module.free
        (Module.free (Module.mk (some 50))
          { emptyState with modules := [⟨50, [], "", ""⟩] }).1
        (Module.free (Module.mk (some 50))
          { emptyState with modules := [⟨50, [], "", ""⟩] }).2).2).faulted
      = false := by
  decide

/-- C6 (amended): after `free()` the wrapper's handle field is null, and
every subsequent operation on the disposed wrapper other than `free` itself
(whose disposal call is infallible and acts as a silent no-op on the nulled
handle) faults — a fail-fast, detectable native error rather than silent
progress. -/
theorem corrected_C6_amended (m : Module) (b : Builder) (s : NativeState) :
    (Module.free m s).1.ref = none ∧
    (Builder.free b s).1.ref = none ∧
    (∀ (op : ModuleOp) (t : NativeState),
      (Module.dispatchOp (Module.free m s).1 op t).faulted = true) ∧
    (∀ (op : BuilderOp) (t : NativeState),
      (Builder.dispatchOp (Builder.free b s).1 op t).faulted = true) := by
  refine ⟨rfl, rfl, fun op t => ?_, fun op t => ?_⟩
  · cases op <;> rfl
  · cases op with
    | build c => cases c <;> rfl
    | getInsertBlock => rfl
    | positionAfter bb instr => rfl
    | positionBefore instr => rfl
    | positionAtEnd bb => rfl

theorem StructType.create_eq (elementTypes : List Typ) (packed : Bool)
    (s : NativeState) :
    StructType.create elementTypes packed s = (⟨some s.nextHandle⟩,
      { s with nextHandle := s.nextHandle + 1
               trace := s.trace ++ [structCreateCall elementTypes packed]
               structTypes := s.structTypes ++
                 [⟨s.nextHandle, genPtrArray Typ.ref elementTypes, packed⟩] }) :=
  rfl

theorem findStruct_created (elementTypes : List Typ) (packed : Bool)
    (s : NativeState)
    (H : ∀ st ∈ s.structTypes, st.handle ≠ s.nextHandle) :
    findStruct (StructType.create elementTypes packed s).2 s.nextHandle =
      some ⟨s.nextHandle, genPtrArray Typ.ref elementTypes, packed⟩ := by
  simp only [StructType.create_eq, findStruct_mk]
  rw [List.find?_append]
  have hnone : s.structTypes.find? (fun st => st.handle == s.nextHandle)
      = none := by
    rw [List.find?_eq_none]
    intro st hst
    simpa using H st hst
  rw [hnone]
  simp

theorem StructType.numStructElements_of_found (st : StructType) (h : Nat)
    (elems : List (Option Nat)) (packed : Bool) (s : NativeState)
    (h1 : st.ref = some h)
    (h2 : findStruct s h = some ⟨h, elems, packed⟩) :
    st.numStructElements s =
      (elems.length, s.emit "LLVMCountStructElementTypes" [.handle st.ref]) := by
  simp only [StructType.numStructElements, nativeCountStructElementTypes, h1,
    findStruct_emit, h2]

theorem StructType.getTypeAt_of_found (st : StructType) (h : Nat)
    (elems : List (Option Nat)) (packed : Bool) (i : Nat) (s : NativeState)
    (h1 : st.ref = some h)
    (h2 : findStruct s h = some ⟨h, elems, packed⟩) :
    st.getTypeAt i s = (⟨elems.getD i none⟩,
      s.emit "LLVMStructGetTypeAtIndex" [.handle st.ref, .int i]) := by
  simp only [StructType.getTypeAt, nativeStructGetTypeAtIndex, h1,
    findStruct_emit, h2]

theorem typesGo_of_found (st : StructType) (h : Nat)
    (elems : List (Option Nat)) (packed : Bool) (h1 : st.ref = some h) :
    ∀ (n i : Nat) (s : NativeState),
      findStruct s h = some ⟨h, elems, packed⟩ →
      ((typesGo st i n s).1).map Typ.ref =
        (List.range' i n).map (fun j => elems.getD j none) := by
  intro n
  induction n with
  | zero => intro i s _; rfl
  | succ k ih =>
    intro i s h2
    rw [typesGo]
    rw [StructType.getTypeAt_of_found st h elems packed i s h1 h2]
    have h2' : findStruct (s.emit "LLVMStructGetTypeAtIndex"
        [.handle st.ref, .int i]) h = some ⟨h, elems, packed⟩ := by
      rw [findStruct_emit]; exact h2
    simp only [List.range'_succ, List.map_cons]
    rw [ih (i + 1) _ h2']

/-- C7: a struct type built by `StructType.create(ts, packed)` reports
`numStructElements()` equal to `ts.length`; `getTypeAt(i)` for each
`i < ts.length` wraps exactly the handle of the `i`-th element type of
`ts`; and the `types()` iterator yields exactly the element types of `ts`,
in order, terminating after `ts.length` elements. -/
theorem claim_C7_structType (ts : List Typ) (packed : Bool)
    (s : NativeState)
    (H : ∀ st ∈ s.structTypes, st.handle ≠ s.nextHandle) :
    ((StructType.create ts packed s).1.numStructElements
        (StructType.create ts packed s).2).1 = ts.length ∧
    (∀ (i : Nat) (hi : i < ts.length),
      (((StructType.create ts packed s).1.getTypeAt i
          (StructType.create ts packed s).2).1).ref = (ts.get ⟨i, hi⟩).ref) ∧
    (((StructType.create ts packed s).1.types
        (StructType.create ts packed s).2).1).map Typ.ref = ts.map Typ.ref ∧
    (((StructType.create ts packed s).1.types
        (StructType.create ts packed s).2).1).length = ts.length := by
  have hcreated := findStruct_created ts packed s H
  have h1 : (StructType.create ts packed s).1.ref = some s.nextHandle := rfl
  have hlen : (genPtrArray Typ.ref ts).length = ts.length := by
    rw [genPtrArray_eq_map, List.length_map]
  have hnum := StructType.numStructElements_of_found
    (StructType.create ts packed s).1 s.nextHandle
    (genPtrArray Typ.ref ts) packed (StructType.create ts packed s).2
    h1 hcreated
  refine ⟨?_, ?_, ?_, ?_⟩
  · rw [hnum]
    exact hlen
  · intro i hi
    rw [StructType.getTypeAt_of_found (StructType.create ts packed s).1
      s.nextHandle (genPtrArray Typ.ref ts) packed i
      (StructType.create ts packed s).2 h1 hcreated]
    show (genPtrArray Typ.ref ts).getD i none = _
    rw [genPtrArray_eq_map]
    rw [List.getD_eq_getElem?_getD, List.getElem?_map]
    rw [List.getElem?_eq_getElem hi]
    rfl
  · rw [StructType.types, hnum]
    have h2' : findStruct ((StructType.create ts packed s).2.emit
        "LLVMCountStructElementTypes"
        [.handle (StructType.create ts packed s).1.ref]) s.nextHandle =
        some ⟨s.nextHandle, genPtrArray Typ.ref ts, packed⟩ := by
      rw [findStruct_emit]; exact hcreated
    rw [typesGo_of_found (StructType.create ts packed s).1 s.nextHandle
      (genPtrArray Typ.ref ts) packed h1 _ 0 _ h2']
    rw [hlen]
    apply List.ext_get?_iff.mpr
    intro k
    by_cases hk : k < ts.length
    · rw [List.get?_map, List.get?_map]
      rw [List.get?_eq_get (by simpa using hk), List.get?_eq_get hk]
      simp only [Option.map_some']
      congr 1
      have : (List.range' 0 ts.length).get ⟨k, by simpa using hk⟩ = k := by
        have := List.range'_eq_map_range 0 ts.length
        simp [List.get_eq_getElem, this]
      rw [this]
      rw [genPtrArray_eq_map]
      rw [List.getD_eq_getElem?_getD, List.getElem?_map,
        List.getElem?_eq_getElem hk]
      rfl
    · rw [List.get?_eq_none.mpr, List.get?_eq_none.mpr]
      · simpa using Nat.le_of_not_lt hk
      · simpa using Nat.le_of_not_lt hk
  · rw [StructType.types, hnum]
    have h2' : findStruct ((StructType.create ts packed s).2.emit
        "LLVMCountStructElementTypes"
        [.handle (StructType.create ts packed s).1.ref]) s.nextHandle =
        some ⟨s.nextHandle, genPtrArray Typ.ref ts, packed⟩ := by
      rw [findStruct_emit]; exact hcreated
    have := typesGo_of_found (StructType.create ts packed s).1 s.nextHandle
      (genPtrArray Typ.ref ts) packed h1 (genPtrArray Typ.ref ts).length 0 _
      h2'
    have hlen2 := congrArg List.length this
    simpa [hlen] using hlen2

/-- C7 witness: a two-element struct type over concrete element-type
handles 5 and 8. -/
theorem claim_C7_witness :
    ((StructType.create [⟨some 5⟩, ⟨some 8⟩] false emptyState).1.numStructElements
        (StructType.create [⟨some 5⟩, ⟨some 8⟩] false emptyState).2).1 = 2 ∧
    (((StructType.create [⟨some 5⟩, ⟨some 8⟩] false emptyState).1.getTypeAt 1
        (StructType.create [⟨some 5⟩, ⟨some 8⟩] false emptyState).2).1).ref =
      some 8 ∧
    (((StructType.create [⟨some 5⟩, ⟨some 8⟩] false emptyState).1.types
        (StructType.create [⟨some 5⟩, ⟨some 8⟩] false emptyState).2).1).map
        Typ.ref = [some 5, some 8] := by
  obtain ⟨ha, hb, hc, -⟩ := claim_C7_structType [⟨some 5⟩, ⟨some 8⟩] false
    emptyState (by simp [emptyState])
  exact ⟨ha, hb 1 (by decide), hc⟩

/-! ### Trace behaviour of the native model

Every native semantic function leaves the observable trace unchanged: the
trace is appended to only by the wrapper methods' `emit` steps.  These
lemmas let the per-method call traces be computed. -/

@[simp] theorem fresh_snd_trace (s : NativeState) :
    (s.fresh).2.trace = s.trace := rfl

@[simp] theorem nativeCreateModule_trace (s : NativeState) :
    (nativeCreateModule s).2.trace = s.trace := rfl

@[simp] theorem nativeSetTarget_trace (s : NativeState) (m : Option Nat)
    (tt : String) : (nativeSetTarget s m tt).trace = s.trace := by
  unfold nativeSetTarget; repeat (first | rfl | split)

@[simp] theorem nativeSetDataLayout_trace (s : NativeState) (m : Option Nat)
    (dl : String) : (nativeSetDataLayout s m dl).trace = s.trace := by
  unfold nativeSetDataLayout; repeat (first | rfl | split)

@[simp] theorem nativeWriteBitcodeToFile_trace (s : NativeState)
    (m : Option Nat) : (nativeWriteBitcodeToFile s m).2.trace = s.trace := by
  unfold nativeWriteBitcodeToFile; repeat (first | rfl | split)

@[simp] theorem nativePrintModuleToString_trace (s : NativeState)
    (m : Option Nat) : (nativePrintModuleToString s m).2.trace = s.trace := by
  unfold nativePrintModuleToString; repeat (first | rfl | split)

@[simp] theorem nativeAddFunction_trace (s : NativeState) (m : Option Nat)
    (name : String) (ty : Option Nat) :
    (nativeAddFunction s m name ty).2.trace = s.trace := by
  unfold nativeAddFunction; repeat (first | rfl | split)

@[simp] theorem nativeGetNamedFunction_trace (s : NativeState)
    (m : Option Nat) (name : String) :
    (nativeGetNamedFunction s m name).2.trace = s.trace := by
  unfold nativeGetNamedFunction; repeat (first | rfl | split)

@[simp] theorem nativeDeleteFunction_trace (s : NativeState)
    (f : Option Nat) : (nativeDeleteFunction s f).trace = s.trace := by
  unfold nativeDeleteFunction; repeat (first | rfl | split)

@[simp] theorem nativeFunctionType_trace (s : NativeState) (r : Option Nat)
    (ps : List (Option Nat)) :
    (nativeFunctionType s r ps).2.trace = s.trace := rfl

@[simp] theorem nativeStructType_trace (s : NativeState)
    (es : List (Option Nat)) (p : Bool) :
    (nativeStructType s es p).2.trace = s.trace := rfl

@[simp] theorem nativeCountStructElementTypes_trace (s : NativeState)
    (t : Option Nat) :
    (nativeCountStructElementTypes s t).2.trace = s.trace := by
  unfold nativeCountStructElementTypes; repeat (first | rfl | split)

@[simp] theorem nativeStructGetTypeAtIndex_trace (s : NativeState)
    (t : Option Nat) (i : Nat) :
    (nativeStructGetTypeAtIndex s t i).2.trace = s.trace := by
  unfold nativeStructGetTypeAtIndex; repeat (first | rfl | split)

@[simp] theorem nativeFreshType_trace (s : NativeState) :
    (nativeFreshType s).2.trace = s.trace := rfl

@[simp] theorem nativeFreshValue_trace (s : NativeState) :
    (nativeFreshValue s).2.trace = s.trace := rfl

@[simp] theorem nativeGetValueName_trace (s : NativeState) (v : Option Nat) :
    (nativeGetValueName s v).2.trace = s.trace := by
  unfold nativeGetValueName; repeat (first | rfl | split)

@[simp] theorem nativeSetValueName_trace (s : NativeState) (v : Option Nat)
    (n : String) : (nativeSetValueName s v n).trace = s.trace := by
  unfold nativeSetValueName; repeat (first | rfl | split)

@[simp] theorem nativeAppendBasicBlock_trace (s : NativeState)
    (f : Option Nat) : (nativeAppendBasicBlock s f).2.trace = s.trace := by
  unfold nativeAppendBasicBlock; repeat (first | rfl | split)

@[simp] theorem nativeGetEntryBasicBlock_trace (s : NativeState)
    (f : Option Nat) : (nativeGetEntryBasicBlock s f).2.trace = s.trace := by
  unfold nativeGetEntryBasicBlock; repeat (first | rfl | split)

@[simp] theorem nativeCountParams_trace (s : NativeState) (f : Option Nat) :
    (nativeCountParams s f).2.trace = s.trace := by
  unfold nativeCountParams; repeat (first | rfl | split)

@[simp] theorem nativeGetParam_trace (s : NativeState) (f : Option Nat)
    (i : Nat) : (nativeGetParam s f i).2.trace = s.trace := by
  unfold nativeGetParam; repeat (first | rfl | split)

@[simp] theorem nativeGetBasicBlockParent_trace (s : NativeState)
    (b : Option Nat) :
    (nativeGetBasicBlockParent s b).2.trace = s.trace := by
  unfold nativeGetBasicBlockParent; repeat (first | rfl | split)

@[simp] theorem nativeGetFirstInstruction_trace (s : NativeState)
    (b : Option Nat) :
    (nativeGetFirstInstruction s b).2.trace = s.trace := by
  unfold nativeGetFirstInstruction; repeat (first | rfl | split)

@[simp] theorem nativeGetLastInstruction_trace (s : NativeState)
    (b : Option Nat) :
    (nativeGetLastInstruction s b).2.trace = s.trace := by
  unfold nativeGetLastInstruction; repeat (first | rfl | split)

@[simp] theorem nativeCreateBuilder_trace (s : NativeState) :
    (nativeCreateBuilder s).2.trace = s.trace := rfl

@[simp] theorem nativeGetInsertBlock_trace (s : NativeState)
    (b : Option Nat) : (nativeGetInsertBlock s b).2.trace = s.trace := by
  unfold nativeGetInsertBlock; repeat (first | rfl | split)

@[simp] theorem nativePositionBuilderAtEnd_trace (s : NativeState)
    (b blk : Option Nat) :
    (nativePositionBuilderAtEnd s b blk).trace = s.trace := by
  unfold nativePositionBuilderAtEnd; repeat (first | rfl | split)

@[simp] theorem nativePositionBuilderBefore_trace (s : NativeState)
    (b i : Option Nat) :
    (nativePositionBuilderBefore s b i).trace = s.trace := by
  unfold nativePositionBuilderBefore; repeat (first | rfl | split)

@[simp] theorem nativePositionBuilder_trace (s : NativeState)
    (b blk i : Option Nat) :
    (nativePositionBuilder s b blk i).trace = s.trace := by
  unfold nativePositionBuilder; repeat (first | rfl | split)

@[simp] theorem nativeBuildInsert_trace (s : NativeState) (b : Option Nat) :
    (nativeBuildInsert s b).2.trace = s.trace := by
  unfold nativeBuildInsert; repeat (first | rfl | split)

@[simp] theorem nativeCreateTargetMachine_trace (s : NativeState)
    (t : Option Nat) :
    (nativeCreateTargetMachine s t).2.trace = s.trace := rfl

@[simp] theorem nativeGetTargetMachineTarget_trace (s : NativeState)
    (tm : Option Nat) :
    (nativeGetTargetMachineTarget s tm).2.trace = s.trace := by
  unfold nativeGetTargetMachineTarget; repeat (first | rfl | split)

@[simp] theorem nativeGetTargetFromTriple_trace (s : NativeState)
    (triple : String) :
    (nativeGetTargetFromTriple s triple).2.2.trace = s.trace := by
  unfold nativeGetTargetFromTriple; repeat (first | rfl | split)

/-! ### Claim C10 -/

/-- C10: `ConstInt.create(value, type)` always hands the native integer
constructor the sign-extension flag `false`, for every value including
negative ones; `createTrue()` and `createFalse()` first fetch the
process-global i1 type singleton (`LLVMInt1Type()`) and construct the
constants 1 and 0 against it, never against a caller-chosen type or
context. -/
theorem claim_C10_constInt (value : Int) (type : Typ) (s : NativeState) :
    ((ConstInt.create value type s).2).trace = s.trace ++
      [⟨"LLVMConstInt", [.handle type.ref, .int value, .boolean false]⟩] ∧
    ((ConstInt.createTrue s).2).trace = s.trace ++
      [⟨"LLVMInt1Type", []⟩,
       ⟨"LLVMConstInt", [.handle (some int1TypeHandle), .int 1, .boolean false]⟩] ∧
    ((ConstInt.createFalse s).2).trace = s.trace ++
      [⟨"LLVMInt1Type", []⟩,
       ⟨"LLVMConstInt", [.handle (some int1TypeHandle), .int 0, .boolean false]⟩] := by
  refine ⟨?_, ?_, ?_⟩ <;>
    simp [ConstInt.create, ConstInt.createTrue, ConstInt.createFalse,
      NativeState.emit]

/-! ### Claim C9 -/

/-- C9: the `PointerArray` built by `genPtrArray` has exactly the input
array's length with the `i`-th entry being the `i`-th wrapper's handle, and
each composite-taking operation hands the native library precisely that
array together with the input length as the count argument. -/
theorem claim_C9_ptrArrays :
    (∀ (α : Type) (rf : α → Option Nat) (array : List α),
      genPtrArray rf array = array.map rf) ∧
    (∀ (ret : Typ) (params : List Typ) (iv : Bool) (s : NativeState),
      ((FunctionType.create ret params iv s).2).trace = s.trace ++
        [⟨"LLVMFunctionType", [.handle ret.ref, .ptrArr (params.map Typ.ref),
          .int params.length, .boolean iv]⟩]) ∧
    (∀ (ts : List Typ) (packed : Bool) (s : NativeState),
      ((StructType.create ts packed s).2).trace = s.trace ++
        [⟨"LLVMStructType", [.ptrArr (ts.map Typ.ref), .int ts.length,
          .boolean packed]⟩]) ∧
    (∀ (vals : List Value) (packed : Bool) (s : NativeState),
      ((ConstStruct.create vals packed s).2).trace = s.trace ++
        [⟨"LLVMConstStruct", [.ptrArr (vals.map Value.ref), .int vals.length,
          .boolean packed]⟩]) ∧
    (∀ (st : StructType) (vals : List Value) (s : NativeState),
      ((ConstStruct.createNamed st vals s).2).trace = s.trace ++
        [⟨"LLVMConstNamedStruct", [.handle st.ref,
          .ptrArr (vals.map Value.ref), .int vals.length]⟩]) ∧
    (∀ (t : Typ) (vals : List Value) (s : NativeState),
      ((ConstArray.create t vals s).2).trace = s.trace ++
        [⟨"LLVMConstArray", [.handle t.ref, .ptrArr (vals.map Value.ref),
          .int vals.length]⟩]) ∧
    (∀ (b : Builder) (func : Value) (args : List Value) (name : String)
        (s : NativeState),
      ((b.buildCall func args name s).2).trace = s.trace ++
        [⟨"LLVMBuildCall", [.handle b.ref, .handle func.ref,
          .ptrArr (args.map Value.ref), .int args.length, .str name]⟩]) := by
  refine ⟨fun α rf array => genPtrArray_eq_map rf array, ?_, ?_, ?_, ?_, ?_, ?_⟩ <;>
    intros <;>
    simp [FunctionType.create, StructType.create, ConstStruct.create,
      ConstStruct.createNamed, ConstArray.create, Builder.buildCall,
      NativeState.emit, genPtrArray_eq_map]

theorem noObjTrace_append (l Δ : List NativeCall) (h1 : noObjTrace l)
    (h2 : ∀ c ∈ Δ, noObjCall c = true) : noObjTrace (l ++ Δ) := by
  intro c hc
  rcases List.mem_append.mp hc with h | h
  exacts [h1 c h, h2 c h]

theorem noObjTrace_of_eq (s t : NativeState) (Δ : List NativeCall)
    (heq : t.trace = s.trace ++ Δ) (h : noObjTrace s.trace)
    (hΔ : ∀ c ∈ Δ, noObjCall c = true) : noObjTrace t.trace := by
  rw [heq]
  exact noObjTrace_append _ _ h hΔ

theorem typesGo_noObjTrace (st : StructType) : ∀ (n i : Nat)
    (s : NativeState), noObjTrace s.trace →
    noObjTrace ((typesGo st i n s).2).trace := by
  intro n
  induction n with
  | zero => intro i s h; exact h
  | succ k ih =>
    intro i s h
    show noObjTrace ((typesGo st (i + 1) k ((st.getTypeAt i s).2)).2).trace
    apply ih
    exact noObjTrace_of_eq s _ _
      (by simp [StructType.getTypeAt, NativeState.emit] <;> rfl) h
      (by simp [noObjCall, FFIArg.isObj])

theorem paramsGo_noObjTrace (f : Function) : ∀ (n i : Nat)
    (s : NativeState), noObjTrace s.trace →
    noObjTrace ((paramsGo f i n s).2).trace := by
  intro n
  induction n with
  | zero => intro i s h; exact h
  | succ k ih =>
    intro i s h
    show noObjTrace ((paramsGo f (i + 1) k ((f.getParam i s).2)).2).trace
    apply ih
    exact noObjTrace_of_eq s _ _
      (by simp [Function.getParam, NativeState.emit] <;> rfl) h
      (by simp [noObjCall, FFIArg.isObj])

/-- C8: when a `Context` is supplied, `Module.create` and `Builder.create`
hand the native in-context creation call the `Context` wrapper object
itself (recorded as an `FFIArg.obj` carrying the wrapper's `ref` field) —
not the `ctx.ref` handle — while every other operation of the module only
ever passes handles, strings, numbers, flags, pointer arrays and
out-parameters: no call it makes carries a wrapper object. -/
theorem claim_C8_wrapper_object_passed :
    (∀ (name : String) (ctx : Context) (s : NativeState),
      ((Module.create name (some ctx) s).2).trace = s.trace ++
        [⟨"LLVMModuleCreateWithNameInContext", [.str name, .obj ctx.ref]⟩]) ∧
    (∀ (ctx : Context) (s : NativeState),
      ((Builder.create (some ctx) s).2).trace = s.trace ++
        [⟨"LLVMCreateBuilderInContext", [.obj ctx.ref]⟩]) ∧
    (∀ (op : AnyOp) (s : NativeState), noObjTrace s.trace →
      noObjTrace (dispatchAnyOp op s).trace) := by
  refine ⟨?_, ?_, ?_⟩
  · intro name ctx s
    simp [Module.create, NativeState.emit]
  · intro ctx s
    simp [Builder.create, NativeState.emit]
  · intro op s h
    cases op with
    | contextCreate =>
      exact noObjTrace_of_eq s _ _
        (by simp [dispatchAnyOp, Context.create, NativeState.emit] <;> rfl) h
        (by simp [noObjCall, FFIArg.isObj])
    | contextGetGlobal =>
      exact noObjTrace_of_eq s _ _
        (by simp [dispatchAnyOp, Context.getGlobal, NativeState.emit] <;> rfl) h
        (by simp [noObjCall, FFIArg.isObj])
    | moduleCreateNoCtx name =>
      exact noObjTrace_of_eq s _ _
        (by simp [dispatchAnyOp, Module.create, NativeState.emit] <;> rfl) h
        (by simp [noObjCall, FFIArg.isObj])
    | moduleFree m =>
      exact noObjTrace_of_eq s _ _
        (by simp [dispatchAnyOp, Module.free, NativeState.emit] <;> rfl) h
        (by simp [noObjCall, FFIArg.isObj])
    | moduleSetTarget m tt =>
      exact noObjTrace_of_eq s _ _
        (by simp [dispatchAnyOp, Module.setTarget, NativeState.emit] <;> rfl) h
        (by simp [noObjCall, FFIArg.isObj])
    | moduleSetDataLayout m dl =>
      exact noObjTrace_of_eq s _ _
        (by simp [dispatchAnyOp, Module.setDataLayout, NativeState.emit] <;> rfl) h
        (by simp [noObjCall, FFIArg.isObj])
    | moduleWriteBitcodeToFile m fn =>
      exact noObjTrace_of_eq s _ _
        (by simp [dispatchAnyOp, Module.writeBitcodeToFile, NativeState.emit] <;> rfl) h
        (by simp [noObjCall, FFIArg.isObj])
    | moduleToString m =>
      exact noObjTrace_of_eq s _ _
        (by simp [dispatchAnyOp, Module.toString, NativeState.emit] <;> rfl) h
        (by simp [noObjCall, FFIArg.isObj])
    | moduleAddFunction m name ty =>
      exact noObjTrace_of_eq s _ _
        (by simp [dispatchAnyOp, Module.addFunction, NativeState.emit] <;> rfl) h
        (by simp [noObjCall, FFIArg.isObj])
    | moduleGetFunction m name =>
      exact noObjTrace_of_eq s _ _
        (by simp [dispatchAnyOp, Module.getFunction, NativeState.emit] <;> rfl) h
        (by simp [noObjCall, FFIArg.isObj])
    | voidTypeCreate =>
      exact noObjTrace_of_eq s _ _
        (by simp [dispatchAnyOp, VoidType.create, NativeState.emit] <;> rfl) h
        (by simp [noObjCall, FFIArg.isObj])
    | intTypeCreate1 =>
      exact noObjTrace_of_eq s _ _
        (by simp [dispatchAnyOp, IntType.createInt1, NativeState.emit] <;> rfl) h
        (by simp [noObjCall, FFIArg.isObj])
    | intTypeCreate8 =>
      exact noObjTrace_of_eq s _ _
        (by simp [dispatchAnyOp, IntType.createInt8, NativeState.emit] <;> rfl) h
        (by simp [noObjCall, FFIArg.isObj])
    | intTypeCreate16 =>
      exact noObjTrace_of_eq s _ _
        (by simp [dispatchAnyOp, IntType.createInt16, NativeState.emit] <;> rfl) h
        (by simp [noObjCall, FFIArg.isObj])
    | intTypeCreate32 =>
      exact noObjTrace_of_eq s _ _
        (by simp [dispatchAnyOp, IntType.createInt32, NativeState.emit] <;> rfl) h
        (by simp [noObjCall, FFIArg.isObj])
    | intTypeCreate64 =>
      exact noObjTrace_of_eq s _ _
        (by simp [dispatchAnyOp, IntType.createInt64, NativeState.emit] <;> rfl) h
        (by simp [noObjCall, FFIArg.isObj])
    | intTypeCreate128 =>
      exact noObjTrace_of_eq s _ _
        (by simp [dispatchAnyOp, IntType.createInt128, NativeState.emit] <;> rfl) h
        (by simp [noObjCall, FFIArg.isObj])
    | floatTypeCreateFloat =>
      exact noObjTrace_of_eq s _ _
        (by simp [dispatchAnyOp, FloatType.createFloat, NativeState.emit] <;> rfl) h
        (by simp [noObjCall, FFIArg.isObj])
    | floatTypeCreateDouble =>
      exact noObjTrace_of_eq s _ _
        (by simp [dispatchAnyOp, FloatType.createDouble, NativeState.emit] <;> rfl) h
        (by simp [noObjCall, FFIArg.isObj])
    | functionTypeCreate ret params isVarArg =>
      exact noObjTrace_of_eq s _ _
        (by simp [dispatchAnyOp, FunctionType.create, NativeState.emit] <;> rfl) h
        (by simp [noObjCall, FFIArg.isObj])
    | structTypeCreate ts packed =>
      exact noObjTrace_of_eq s _ _
        (by simp [dispatchAnyOp, StructType.create, NativeState.emit] <;> rfl) h
        (by simp [noObjCall, FFIArg.isObj])
    | structNumElements st =>
      exact noObjTrace_of_eq s _ _
        (by simp [dispatchAnyOp, StructType.numStructElements, NativeState.emit] <;> rfl) h
        (by simp [noObjCall, FFIArg.isObj])
    | structGetTypeAt st i =>
      exact noObjTrace_of_eq s _ _
        (by simp [dispatchAnyOp, StructType.getTypeAt, NativeState.emit] <;> rfl) h
        (by simp [noObjCall, FFIArg.isObj])
    | arrayTypeCreate t count =>
      exact noObjTrace_of_eq s _ _
        (by simp [dispatchAnyOp, ArrayType.create, NativeState.emit] <;> rfl) h
        (by simp [noObjCall, FFIArg.isObj])
    | pointerTypeCreate t a =>
      exact noObjTrace_of_eq s _ _
        (by simp [dispatchAnyOp, PointerType.create, NativeState.emit] <;> rfl) h
        (by simp [noObjCall, FFIArg.isObj])
    | valueGetUndef t =>
      exact noObjTrace_of_eq s _ _
        (by simp [dispatchAnyOp, Value.getUndef, NativeState.emit] <;> rfl) h
        (by simp [noObjCall, FFIArg.isObj])
    | valueConstNull t =>
      exact noObjTrace_of_eq s _ _
        (by simp [dispatchAnyOp, Value.constNull, NativeState.emit] <;> rfl) h
        (by simp [noObjCall, FFIArg.isObj])
    | valueConstPointerNull t =>
      exact noObjTrace_of_eq s _ _
        (by simp [dispatchAnyOp, Value.constPointerNull, NativeState.emit] <;> rfl) h
        (by simp [noObjCall, FFIArg.isObj])
    | valueGetName v =>
      exact noObjTrace_of_eq s _ _
        (by simp [dispatchAnyOp, Value.getName, NativeState.emit] <;> rfl) h
        (by simp [noObjCall, FFIArg.isObj])
    | valueSetName v n =>
      exact noObjTrace_of_eq s _ _
        (by simp [dispatchAnyOp, Value.setName, NativeState.emit] <;> rfl) h
        (by simp [noObjCall, FFIArg.isObj])
    | funcAppendBasicBlock f n =>
      exact noObjTrace_of_eq s _ _
        (by simp [dispatchAnyOp, Function.appendBasicBlock, NativeState.emit] <;> rfl) h
        (by simp [noObjCall, FFIArg.isObj])
    | funcGetEntryBlock f =>
      exact noObjTrace_of_eq s _ _
        (by simp [dispatchAnyOp, Function.getEntryBlock, NativeState.emit] <;> rfl) h
        (by simp [noObjCall, FFIArg.isObj])
    | funcCountParams f =>
      exact noObjTrace_of_eq s _ _
        (by simp [dispatchAnyOp, Function.countParams, NativeState.emit] <;> rfl) h
        (by simp [noObjCall, FFIArg.isObj])
    | funcGetParam f i =>
      exact noObjTrace_of_eq s _ _
        (by simp [dispatchAnyOp, Function.getParam, NativeState.emit] <;> rfl) h
        (by simp [noObjCall, FFIArg.isObj])
    | funcDeleteFromParent f =>
      exact noObjTrace_of_eq s _ _
        (by simp [dispatchAnyOp, Function.deleteFromParent, NativeState.emit] <;> rfl) h
        (by simp [noObjCall, FFIArg.isObj])
    | constIntCreate v t =>
      exact noObjTrace_of_eq s _ _
        (by simp [dispatchAnyOp, ConstInt.create, NativeState.emit] <;> rfl) h
        (by simp [noObjCall, FFIArg.isObj])
    | constIntCreateTrue =>
      exact noObjTrace_of_eq s _ _
        (by simp [dispatchAnyOp, ConstInt.createTrue, NativeState.emit] <;> rfl) h
        (by simp [noObjCall, FFIArg.isObj])
    | constIntCreateFalse =>
      exact noObjTrace_of_eq s _ _
        (by simp [dispatchAnyOp, ConstInt.createFalse, NativeState.emit] <;> rfl) h
        (by simp [noObjCall, FFIArg.isObj])
    | constFloatCreate v t =>
      exact noObjTrace_of_eq s _ _
        (by simp [dispatchAnyOp, ConstFloat.create, NativeState.emit] <;> rfl) h
        (by simp [noObjCall, FFIArg.isObj])
    | constStringCreateInContext c v d =>
      exact noObjTrace_of_eq s _ _
        (by simp [dispatchAnyOp, ConstString.createInContext, NativeState.emit] <;> rfl) h
        (by simp [noObjCall, FFIArg.isObj])
    | constStringCreate v d =>
      exact noObjTrace_of_eq s _ _
        (by simp [dispatchAnyOp, ConstString.create, NativeState.emit] <;> rfl) h
        (by simp [noObjCall, FFIArg.isObj])
    | constStructCreate vals packed =>
      exact noObjTrace_of_eq s _ _
        (by simp [dispatchAnyOp, ConstStruct.create, NativeState.emit] <;> rfl) h
        (by simp [noObjCall, FFIArg.isObj])
    | constStructCreateNamed st vals =>
      exact noObjTrace_of_eq s _ _
        (by simp [dispatchAnyOp, ConstStruct.createNamed, NativeState.emit] <;> rfl) h
        (by simp [noObjCall, FFIArg.isObj])
    | constArrayCreate t vals =>
      exact noObjTrace_of_eq s _ _
        (by simp [dispatchAnyOp, ConstArray.create, NativeState.emit] <;> rfl) h
        (by simp [noObjCall, FFIArg.isObj])
    | bbGetParent bb =>
      exact noObjTrace_of_eq s _ _
        (by simp [dispatchAnyOp, BasicBlock.getParent, NativeState.emit] <;> rfl) h
        (by simp [noObjCall, FFIArg.isObj])
    | bbGetFirstInstr bb =>
      exact noObjTrace_of_eq s _ _
        (by simp [dispatchAnyOp, BasicBlock.getFirstInstr, NativeState.emit] <;> rfl) h
        (by simp [noObjCall, FFIArg.isObj])
    | bbGetLastInstr bb =>
      exact noObjTrace_of_eq s _ _
        (by simp [dispatchAnyOp, BasicBlock.getLastInstr, NativeState.emit] <;> rfl) h
        (by simp [noObjCall, FFIArg.isObj])
    | builderCreateNoCtx =>
      exact noObjTrace_of_eq s _ _
        (by simp [dispatchAnyOp, Builder.create, NativeState.emit] <;> rfl) h
        (by simp [noObjCall, FFIArg.isObj])
    | builderFree b =>
      exact noObjTrace_of_eq s _ _
        (by simp [dispatchAnyOp, Builder.free, NativeState.emit] <;> rfl) h
        (by simp [noObjCall, FFIArg.isObj])
    | tmCreate t triple cpu features ol rm cm =>
      exact noObjTrace_of_eq s _ _
        (by simp [dispatchAnyOp, TargetMachine.create, NativeState.emit] <;> rfl) h
        (by simp [noObjCall, FFIArg.isObj])
    | tmGetDefaultTargetTriple =>
      exact noObjTrace_of_eq s _ _
        (by simp [dispatchAnyOp, TargetMachine.getDefaultTargetTriple, NativeState.emit] <;> rfl) h
        (by simp [noObjCall, FFIArg.isObj])
    | tmGetTargetMachineTarget tm =>
      exact noObjTrace_of_eq s _ _
        (by simp [dispatchAnyOp, TargetMachine.getTargetMachineTarget, NativeState.emit] <;> rfl) h
        (by simp [noObjCall, FFIArg.isObj])
    | tmCreateDataLayout tm =>
      exact noObjTrace_of_eq s _ _
        (by simp [dispatchAnyOp, TargetMachine.createDataLayout, NativeState.emit] <;> rfl) h
        (by simp [noObjCall, FFIArg.isObj])
    | tdToString td =>
      exact noObjTrace_of_eq s _ _
        (by simp [dispatchAnyOp, TargetData.toString, NativeState.emit] <;> rfl) h
        (by simp [noObjCall, FFIArg.isObj])
    | targetDescription t =>
      exact noObjTrace_of_eq s _ _
        (by simp [dispatchAnyOp, Target.description, NativeState.emit] <;> rfl) h
        (by simp [noObjCall, FFIArg.isObj])
    | targetName t =>
      exact noObjTrace_of_eq s _ _
        (by simp [dispatchAnyOp, Target.name, NativeState.emit] <;> rfl) h
        (by simp [noObjCall, FFIArg.isObj])
    | targetToStr t =>
      exact noObjTrace_of_eq s _ _
        (by simp [dispatchAnyOp, Target.toString, Target.name, NativeState.emit] <;> rfl) h
        (by simp [noObjCall, FFIArg.isObj])
    | initX86 =>
      exact noObjTrace_of_eq s _ _
        (by simp [dispatchAnyOp, initX86Target, NativeState.emit] <;> rfl) h
        (by simp [noObjCall, FFIArg.isObj])
    | moduleGetOrInsertFunction m name ty =>
      have h1 : noObjTrace ((m.getFunction name s).2).trace :=
        noObjTrace_of_eq s _ _
          (by simp [Module.getFunction, NativeState.emit] <;> rfl) h
          (by simp [noObjCall, FFIArg.isObj])
      have hgoif : dispatchAnyOp (.moduleGetOrInsertFunction m name ty) s =
          (if ((m.getFunction name s).1).ref.isNone then
            m.addFunction name ty ((m.getFunction name s).2)
          else ((m.getFunction name s).1, (m.getFunction name s).2)).2 := rfl
      rw [hgoif]
      split
      · exact noObjTrace_of_eq ((m.getFunction name s).2) _ _
          (by simp [Module.addFunction, NativeState.emit] <;> rfl) h1
          (by simp [noObjCall, FFIArg.isObj])
      · exact h1
    | structTypesIter st =>
      show noObjTrace ((typesGo st 0 (st.numStructElements s).1
        ((st.numStructElements s).2)).2).trace
      apply typesGo_noObjTrace
      exact noObjTrace_of_eq s _ _
        (by simp [StructType.numStructElements, NativeState.emit] <;> rfl) h
        (by simp [noObjCall, FFIArg.isObj])
    | funcParamsIter f =>
      show noObjTrace ((paramsGo f 0 (f.countParams s).1
        ((f.countParams s).2)).2).trace
      apply paramsGo_noObjTrace
      exact noObjTrace_of_eq s _ _
        (by simp [Function.countParams, NativeState.emit] <;> rfl) h
        (by simp [noObjCall, FFIArg.isObj])
    | builderMethod b bop =>
      cases bop with
      | getInsertBlock =>
        exact noObjTrace_of_eq s _ _
          (by simp [dispatchAnyOp, Builder.dispatchOp, Builder.getInsertBlock,
            NativeState.emit] <;> rfl) h (by simp [noObjCall, FFIArg.isObj])
      | positionAfter bb instr =>
        exact noObjTrace_of_eq s _ _
          (by simp [dispatchAnyOp, Builder.dispatchOp, Builder.positionAfter,
            NativeState.emit] <;> rfl) h (by simp [noObjCall, FFIArg.isObj])
      | positionBefore instr =>
        exact noObjTrace_of_eq s _ _
          (by simp [dispatchAnyOp, Builder.dispatchOp, Builder.positionBefore,
            NativeState.emit] <;> rfl) h (by simp [noObjCall, FFIArg.isObj])
      | positionAtEnd bb =>
        exact noObjTrace_of_eq s _ _
          (by simp [dispatchAnyOp, Builder.dispatchOp, Builder.positionAtEnd,
            NativeState.emit] <;> rfl) h (by simp [noObjCall, FFIArg.isObj])
      | build c =>
        cases c <;>
          exact noObjTrace_of_eq s _ _
            (by simp [dispatchAnyOp, Builder.dispatchOp, Builder.dispatchBuild,
              Builder.buildCall, Builder.buildAlloca, Builder.buildLoad,
              Builder.buildStore, Builder.buildStructGEP, Builder.buildSIToFP,
              Builder.buildFPToSI, Builder.buildBitCast,
              Builder.buildInsertValue, Builder.buildAdd, Builder.buildFAdd,
              Builder.buildSub, Builder.buildFSub, Builder.buildMul,
              Builder.buildFMul, Builder.buildNeg, Builder.buildFNeg,
              Builder.buildRet, NativeState.emit] <;> rfl) h
            (by simp [noObjCall, FFIArg.isObj])
    | targetGetFromTriple triple =>
      refine noObjTrace_of_eq s _ [⟨"LLVMGetTargetFromTriple",
        [.str triple, .outPtr "target_ptr", .outPtr "error_ptr"]⟩] ?_ h
        (by simp [noObjCall, FFIArg.isObj])
      simp only [dispatchAnyOp, Target.getFromTriple]
      split <;> simp [NativeState.emit]

end LW
